import Mathlib

/-!
Verification of the ForIT-Xero interest reconciliation engine.

Shallow embedding conventions:
* Money amounts are exact rationals (`ℚ`); JS `Math.round` is Mathlib's `round`
  (both round half towards +∞).
* Dates are integer day indices (days since the Unix epoch); every date handled
  by the engine is a midnight-aligned calendar date, so JS millisecond
  arithmetic such as `Math.floor((b − a) / msPerDay)` is plain integer
  subtraction, and `setDate(getDate() + n)` is `+ n`.
* Calendar months are converted to and from day indices with the standard
  civil-from-days / days-from-civil algorithms, matching the JS `Date`
  year/month/day constructors used by the source.
-/

namespace Forit

/-- `roundMoney` from `utils/calculations.ts`: `Math.round(amount * 100) / 100`.
JS `Math.round` rounds half towards +∞, exactly like Mathlib's `round`. -/
def roundMoney (amount : ℚ) : ℚ := (round (amount * 100) : ℤ) / 100

/-- `round` is monotone. -/
theorem round_monotone {x y : ℚ} (h : x ≤ y) : round x ≤ round y := by
  rw [round_eq, round_eq]
  exact Int.floor_le_floor (by linarith)

/-- `roundMoney` is monotone. -/
theorem roundMoney_monotone {x y : ℚ} (h : x ≤ y) : roundMoney x ≤ roundMoney y := by
  unfold roundMoney
  have h1 : round (x * 100) ≤ round (y * 100) := round_monotone (by nlinarith)
  have h2 : ((round (x * 100) : ℤ) : ℚ) ≤ ((round (y * 100) : ℤ) : ℚ) := by exact_mod_cast h1
  linarith

/-- `roundMoney` of a nonnegative amount is nonnegative. -/
theorem roundMoney_nonneg {x : ℚ} (h : 0 ≤ x) : 0 ≤ roundMoney x := by
  have h0 : roundMoney 0 = 0 := by unfold roundMoney; norm_num
  calc (0 : ℚ) = roundMoney 0 := h0.symm
    _ ≤ roundMoney x := roundMoney_monotone h

/-- A cent multiple: an exact number of hundredths. -/
def CentMul (x : ℚ) : Prop := ∃ k : ℤ, x = (k : ℚ) / 100

/-- `roundMoney` always produces a cent multiple. -/
theorem roundMoney_centMul (x : ℚ) : CentMul (roundMoney x) := ⟨round (x * 100), rfl⟩

/-- `roundMoney` is the identity on cent multiples. -/
theorem roundMoney_eq_self {x : ℚ} (h : CentMul x) : roundMoney x = x := by
  obtain ⟨k, rfl⟩ := h
  unfold roundMoney
  rw [div_mul_cancel₀ _ (by norm_num : (100 : ℚ) ≠ 0), round_intCast]

/-- Cent multiples are closed under addition. -/
theorem CentMul.add {x y : ℚ} (hx : CentMul x) (hy : CentMul y) : CentMul (x + y) := by
  obtain ⟨k, rfl⟩ := hx
  obtain ⟨j, rfl⟩ := hy
  exact ⟨k + j, by push_cast; ring⟩

/-- Cent multiples are closed under negation and subtraction. -/
theorem CentMul.sub {x y : ℚ} (hx : CentMul x) (hy : CentMul y) : CentMul (x - y) := by
  obtain ⟨k, rfl⟩ := hx
  obtain ⟨j, rfl⟩ := hy
  exact ⟨k - j, by push_cast; ring⟩

/-- Zero is a cent multiple. -/
theorem CentMul.zero : CentMul 0 := ⟨0, by norm_num⟩

/-- `daysBetween` from `utils/dates.ts`: whole-day difference `end − start`. -/
def daysBetween (start finish : ℤ) : ℤ := finish - start

/-- `daysOverdue` from `utils/dates.ts`: `max(0, daysBetween(dueDate, asOf))`. -/
def daysOverdue (dueDate asOf : ℤ) : ℤ := max 0 (daysBetween dueDate asOf)

/-- Invoice status enumeration from `types/index.ts`. -/
inductive XeroStatus
| DRAFT | SUBMITTED | AUTHORISED | PAID | VOIDED | DELETED
deriving DecidableEq, Repr

/-- A payment event embedded in a Xero invoice (date and amount). -/
structure XeroPayment where
  date : ℤ
  amount : ℚ
deriving DecidableEq, Repr

/-- A credit-note event embedded in a Xero invoice (date and applied amount). -/
structure XeroCreditNote where
  date : ℤ
  appliedAmount : ℚ
deriving DecidableEq, Repr

/-- `XeroInvoice` from `types/index.ts` (the fields the engine reads). -/
structure XeroInvoice where
  invoiceID : String
  invoiceNumber : String
  status : XeroStatus
  dueDate : ℤ
  total : ℚ
  amountDue : ℚ
  amountPaid : ℚ
  payments : List XeroPayment
  creditNotes : List XeroCreditNote
deriving DecidableEq, Repr

/-- `InterestConfig` from `types/index.ts` (the fields the engine reads). -/
structure InterestConfig where
  xeroContactId : String
  contactName : String
  annualRate : ℚ
  minDaysOverdue : ℤ
  minChargeAmount : ℚ
deriving DecidableEq, Repr

/-- A merged balance-changing event from `utils/paymentTimeline.ts`. -/
structure TEvent where
  date : ℤ
  amount : ℚ
deriving DecidableEq, Repr

/-- `BalancePeriod` from `utils/paymentTimeline.ts`. -/
structure BalancePeriod where
  startDate : ℤ
  endDate : ℤ
  balance : ℚ
  daysInPeriod : ℤ
  daysAfterGrace : ℤ
  interestForPeriod : ℚ
deriving DecidableEq, Repr

/-- `TimelineInterestResult` from `utils/paymentTimeline.ts`. -/
structure TimelineInterestResult where
  periods : List BalancePeriod
  totalInterest : ℚ
  totalDaysOverdue : ℤ
  effectiveDaysCharged : ℤ
deriving DecidableEq, Repr

/-- `createPeriod` from `utils/paymentTimeline.ts`. -/
def createPeriod (startDate endDate : ℤ) (balance : ℚ) (graceEndDate : ℤ)
    (dailyRate : ℚ) : BalancePeriod :=
  let daysInPeriod := endDate - startDate
  let daysAfterGrace : ℤ :=
    if endDate ≤ graceEndDate then 0
    else if graceEndDate ≤ startDate then daysInPeriod
    else endDate - graceEndDate
  { startDate := startDate
    endDate := endDate
    balance := balance
    daysInPeriod := daysInPeriod
    daysAfterGrace := daysAfterGrace
    interestForPeriod := roundMoney (balance * dailyRate * (daysAfterGrace : ℚ)) }

/-- One iteration of the event walk in `calculateTimelineInterest`:
state is (periods so far, current balance, period cursor). -/
def timelineStep (dueDate graceEndDate : ℤ) (dailyRate : ℚ)
    (st : List BalancePeriod × ℚ × ℤ) (ev : TEvent) :
    List BalancePeriod × ℚ × ℤ :=
  let periods := st.1
  let currentBalance := st.2.1
  let periodStart := st.2.2
  if ev.date ≤ dueDate then
    (periods, currentBalance - ev.amount, periodStart)
  else
    let periods' :=
      if periodStart < ev.date ∧ 0 < currentBalance then
        let p := createPeriod periodStart ev.date currentBalance graceEndDate dailyRate
        if 0 < p.daysInPeriod then periods ++ [p] else periods
      else periods
    (periods', max 0 (currentBalance - ev.amount), ev.date)

/-- Stable insertion of an event into a date-sorted list: the new event is
placed after all events whose date is ≤ its own. -/
def insertByDate (e : TEvent) : List TEvent → List TEvent
| [] => [e]
| x :: xs => if x.date ≤ e.date then x :: insertByDate e xs else e :: x :: xs

/-- Stable sort ascending by date (JS `Array.prototype.sort` with the
comparator `(a, b) => a.date − b.date` is a stable sort by date). -/
def sortByDate (events : List TEvent) : List TEvent :=
  events.foldl (fun acc e => insertByDate e acc) []

/-- The merged, date-sorted event list of `calculateTimelineInterest`
(payments then credit notes, stably sorted ascending by date). -/
def timelineEvents (invoice : XeroInvoice) : List TEvent :=
  sortByDate ((invoice.payments.map fun p => TEvent.mk p.date p.amount) ++
    (invoice.creditNotes.map fun c => TEvent.mk c.date c.appliedAmount))

/-- `calculateTimelineInterest` from `utils/paymentTimeline.ts`. -/
def calculateTimelineInterest (invoice : XeroInvoice) (config : InterestConfig)
    (asOfDate : ℤ) : TimelineInterestResult :=
  let dueDate := invoice.dueDate
  let dailyRate := config.annualRate / 100 / 365
  if asOfDate ≤ dueDate then
    { periods := [], totalInterest := 0, totalDaysOverdue := 0, effectiveDaysCharged := 0 }
  else
    let graceEndDate := dueDate + config.minDaysOverdue
    let st := (timelineEvents invoice).foldl
      (timelineStep dueDate graceEndDate dailyRate) ([], invoice.total, dueDate)
    let periods₀ := st.1
    let currentBalance := st.2.1
    let periodStart := st.2.2
    let periods :=
      if periodStart < asOfDate ∧ 0 < currentBalance then
        let p := createPeriod periodStart asOfDate currentBalance graceEndDate dailyRate
        if 0 < p.daysInPeriod then periods₀ ++ [p] else periods₀
      else periods₀
    { periods := periods
      totalInterest := roundMoney (periods.foldl (fun s p => s + p.interestForPeriod) 0)
      totalDaysOverdue := asOfDate - dueDate
      effectiveDaysCharged := periods.foldl (fun s p => s + p.daysAfterGrace) 0 }

/-- `ReconcileAction` from `types/index.ts`, together with the `'NoChange'`
literal the reconciliation code unions it with. -/
inductive RAction
| Created | Updated | Credited | AdditionalCharge | NoChange
deriving DecidableEq, Repr

/-- `ReconcileReason` from `types/index.ts`. -/
inductive RReason
| Initial | DueDateChanged | PartialPayment | SourceVoided | PrincipalChanged
| DailyAccrual | ManualAdjustment
deriving DecidableEq, Repr

/-- `InterestLedgerEntry` from `types/index.ts` (the fields the engine reads
or writes; id/created/credit-note fields are store bookkeeping). The ledger
is modelled as a list in chronological order (oldest first), so the SQL
`ORDER BY created DESC ... TOP 1` latest-entry query is the last matching
element of the list. -/
structure InterestLedgerEntry where
  sourceInvoiceId : String
  sourceInvoiceNumber : String
  interestInvoiceId : String
  interestInvoiceNumber : String
  chargeMonth : String
  action : RAction
  previousAmount : ℚ
  newAmount : ℚ
  delta : ℚ
  reason : RReason
  sourceDueDate : ℤ
  sourceAmountDue : ℚ
  daysOverdue : ℤ
  rate : ℚ
  contactId : String
  contactName : String
deriving DecidableEq, Repr

/-- `getLedgerEntriesBySourceInvoice` from `services/database.ts`:
all ledger rows for one source invoice. -/
def getLedgerEntriesBySourceInvoice (ledger : List InterestLedgerEntry)
    (sourceInvoiceId : String) : List InterestLedgerEntry :=
  ledger.filter (fun e => e.sourceInvoiceId == sourceInvoiceId)

/-- `getCurrentChargedAmount` from `services/database.ts`: the sum of all
deltas for a source invoice. -/
def getCurrentChargedAmount (ledger : List InterestLedgerEntry)
    (sourceInvoiceId : String) : ℚ :=
  (getLedgerEntriesBySourceInvoice ledger sourceInvoiceId).foldl
    (fun sum entry => sum + entry.delta) 0

/-- `getLatestLedgerEntryForInvoice` from `services/database.ts`. -/
def getLatestLedgerEntryForInvoice (ledger : List InterestLedgerEntry)
    (sourceInvoiceId : String) : Option InterestLedgerEntry :=
  (getLedgerEntriesBySourceInvoice ledger sourceInvoiceId).getLast?

/-- `getLedgerEntriesForMonth` from `services/database.ts`. -/
def getLedgerEntriesForMonth (ledger : List InterestLedgerEntry)
    (sourceInvoiceId chargeMonth : String) : List InterestLedgerEntry :=
  ledger.filter (fun e => e.sourceInvoiceId == sourceInvoiceId && e.chargeMonth == chargeMonth)

/-- `getChargedAmountForMonth` from `services/database.ts`. -/
def getChargedAmountForMonth (ledger : List InterestLedgerEntry)
    (sourceInvoiceId chargeMonth : String) : ℚ :=
  (getLedgerEntriesForMonth ledger sourceInvoiceId chargeMonth).foldl
    (fun sum entry => sum + entry.delta) 0

/-- `getLatestLedgerEntryForMonth` from `services/database.ts`. -/
def getLatestLedgerEntryForMonth (ledger : List InterestLedgerEntry)
    (sourceInvoiceId chargeMonth : String) : Option InterestLedgerEntry :=
  (getLedgerEntriesForMonth ledger sourceInvoiceId chargeMonth).getLast?

/-- `createLedgerEntry` from `services/database.ts`: append-only insert. -/
def createLedgerEntry (ledger : List InterestLedgerEntry)
    (entry : InterestLedgerEntry) : List InterestLedgerEntry :=
  ledger ++ [entry]

/-- Result record of `calculateShouldOwe` from `services/reconciliation.ts`. -/
structure ShouldOweResult where
  shouldOwe : ℚ
  daysOverdue : ℤ
  effectiveDays : ℤ
deriving DecidableEq, Repr

/-- `calculateShouldOwe` from `services/reconciliation.ts`. -/
def calculateShouldOwe (invoice : XeroInvoice) (config : InterestConfig)
    (asOfDate : ℤ) : ShouldOweResult :=
  let totalDaysOverdue := daysOverdue invoice.dueDate asOfDate
  if totalDaysOverdue < config.minDaysOverdue then
    { shouldOwe := 0, daysOverdue := totalDaysOverdue, effectiveDays := 0 }
  else
    let timelineResult := calculateTimelineInterest invoice config asOfDate
    { shouldOwe := timelineResult.totalInterest
      daysOverdue := timelineResult.totalDaysOverdue
      effectiveDays := timelineResult.effectiveDaysCharged }

/-- The voided/deleted status test used throughout the reconciliation code. -/
def isVoidedStatus (s : XeroStatus) : Bool :=
  s == XeroStatus.VOIDED || s == XeroStatus.DELETED

/-- `determineReason` from `services/reconciliation.ts` (the `shouldOwe` and
`previouslyCharged` parameters of the source are unused there, and omitted). -/
def determineReason (previousEntry : Option InterestLedgerEntry)
    (currentInvoice : XeroInvoice) : RReason :=
  match previousEntry with
  | none => RReason.Initial
  | some pe =>
    if currentInvoice.dueDate ≠ pe.sourceDueDate then RReason.DueDateChanged
    else if 1/100 < |currentInvoice.amountDue - pe.sourceAmountDue| then
      (if currentInvoice.amountDue < pe.sourceAmountDue then RReason.PartialPayment
       else RReason.PrincipalChanged)
    else if isVoidedStatus currentInvoice.status then RReason.SourceVoided
    else RReason.DailyAccrual

/-- `ReconciliationResult` from `services/reconciliation.ts`. -/
structure ReconciliationResult where
  sourceInvoiceId : String
  sourceInvoiceNumber : String
  shouldOwe : ℚ
  previouslyCharged : ℚ
  delta : ℚ
  action : RAction
  reason : RReason
  interestInvoiceId : Option String
  error : Option String
deriving DecidableEq, Repr

/-- The ledger entry written by `reconcileInvoice` when the delta clears the
one-cent threshold. `periodMonth` is the `YYYY-MM` key of `asOfDate`. -/
def reconcileEntry (invoice : XeroInvoice) (config : InterestConfig)
    (interestInvoiceId interestInvoiceNumber periodMonth : String)
    (shouldOwe previouslyCharged delta : ℚ) (totalDaysOverdue : ℤ)
    (reason : RReason) (action : RAction) : InterestLedgerEntry :=
  { sourceInvoiceId := invoice.invoiceID
    sourceInvoiceNumber := invoice.invoiceNumber
    interestInvoiceId := interestInvoiceId
    interestInvoiceNumber := interestInvoiceNumber
    chargeMonth := periodMonth
    action := action
    previousAmount := previouslyCharged
    newAmount := shouldOwe
    delta := delta
    reason := reason
    sourceDueDate := invoice.dueDate
    sourceAmountDue := invoice.amountDue
    daysOverdue := totalDaysOverdue
    rate := config.annualRate / 100
    contactId := config.xeroContactId
    contactName := config.contactName }

/-- `reconcileInvoice` from `services/reconciliation.ts` (success path; the
catch-clause is modelled separately with an explicit error channel).
Returns the result together with the new ledger state. `periodMonth`
abstracts the `YYYY-MM` string computed from `asOfDate`. -/
def reconcileInvoiceWith (invoice : XeroInvoice) (config : InterestConfig)
    (interestInvoiceId interestInvoiceNumber : String)
    (ledger : List InterestLedgerEntry) (asOfDate : ℤ) (periodMonth : String) :
    ReconciliationResult × List InterestLedgerEntry :=
  let so := calculateShouldOwe invoice config asOfDate
  let shouldOwe := so.shouldOwe
  let previouslyCharged := getCurrentChargedAmount ledger invoice.invoiceID
  let delta := roundMoney (shouldOwe - previouslyCharged)
  let previousEntry := getLatestLedgerEntryForInvoice ledger invoice.invoiceID
  let reason0 := determineReason previousEntry invoice
  -- the source then overwrites result.shouldOwe / result.delta / result.reason
  -- (but not the local variables) when the source invoice is voided or deleted
  let voided := isVoidedStatus invoice.status
  let rShouldOwe := if voided then 0 else shouldOwe
  let rDelta := if voided then -previouslyCharged else delta
  let rReason := if voided then RReason.SourceVoided else reason0
  if |delta| < 1/100 then
    ({ sourceInvoiceId := invoice.invoiceID
       sourceInvoiceNumber := invoice.invoiceNumber
       shouldOwe := rShouldOwe, previouslyCharged := previouslyCharged
       delta := rDelta, action := RAction.NoChange, reason := rReason
       interestInvoiceId := none, error := none }, ledger)
  else
    let act :=
      if 0 < delta then
        (if previouslyCharged = 0 then RAction.Created else RAction.Updated)
      else
        (if shouldOwe = 0 then RAction.Credited else RAction.Updated)
    let entry := reconcileEntry invoice config interestInvoiceId interestInvoiceNumber
      periodMonth shouldOwe previouslyCharged delta so.daysOverdue rReason act
    ({ sourceInvoiceId := invoice.invoiceID
       sourceInvoiceNumber := invoice.invoiceNumber
       shouldOwe := rShouldOwe, previouslyCharged := previouslyCharged
       delta := rDelta, action := act, reason := rReason
       interestInvoiceId := if 0 < delta then some interestInvoiceId else none
       error := none }, createLedgerEntry ledger entry)

/-- Day index (days since 1970-01-01) of a proleptic-Gregorian civil date,
the day arithmetic JS `Date` performs for midnight-aligned dates
(standard days-from-civil algorithm). -/
def civilToDays (y m d : ℤ) : ℤ :=
  let y' := if m ≤ 2 then y - 1 else y
  let era := y'.fdiv 400
  let yoe := y' - era * 400
  let mp := if 2 < m then m - 3 else m + 9
  let doy := (153 * mp + 2).fdiv 5 + d - 1
  let doe := yoe * 365 + yoe.fdiv 4 - yoe.fdiv 100 + doy
  era * 146097 + doe - 719468

/-- Civil date (year, month, day) of a day index
(standard civil-from-days algorithm, inverse of `civilToDays`). -/
def civilFromDays (z : ℤ) : ℤ × ℤ × ℤ :=
  let z' := z + 719468
  let era := z'.fdiv 146097
  let doe := z' - era * 146097
  let yoe := (doe - doe.fdiv 1460 + doe.fdiv 36524 - doe.fdiv 146096).fdiv 365
  let y := yoe + era * 400
  let doy := doe - (365 * yoe + yoe.fdiv 4 - yoe.fdiv 100)
  let mp := (5 * doy + 2).fdiv 153
  let d := doy - (153 * mp + 2).fdiv 5 + 1
  let m := if mp < 10 then mp + 3 else mp - 9
  (if m ≤ 2 then y + 1 else y, m, d)

/-- Two-digit zero padding, JS `String(m).padStart(2, '0')` for `1 ≤ m ≤ 12`. -/
def pad2 (m : ℤ) : String := if m < 10 then "0" ++ toString m else toString m

/-- The `YYYY-MM` period-month string for a calendar year and month. -/
def monthKeyYM (y m : ℤ) : String := toString y ++ "-" ++ pad2 m

/-- Linear month index of a (year, month) pair: `y * 12 + (m − 1)`. -/
def monthIndex (y m : ℤ) : ℤ := y * 12 + (m - 1)

/-- Year of a linear month index. -/
def monthYear (mi : ℤ) : ℤ := mi.fdiv 12

/-- Calendar month (1..12) of a linear month index. -/
def monthOfIndex (mi : ℤ) : ℤ := mi - 12 * mi.fdiv 12 + 1

/-- The `YYYY-MM` period-month string of a linear month index. -/
def monthKey (mi : ℤ) : String := monthKeyYM (monthYear mi) (monthOfIndex mi)

/-- Linear month index of the calendar month containing a day index. -/
def monthOfDay (t : ℤ) : ℤ :=
  let c := civilFromDays t
  monthIndex c.1 c.2.1

/-- The `YYYY-MM` period-month string the reconciliation code derives from a
date via `getFullYear` / `getMonth`. -/
def monthKeyOfDay (t : ℤ) : String := monthKey (monthOfDay t)

/-- `reconcileInvoice` from `services/reconciliation.ts` (success path):
the period-month key is derived from `asOfDate`. -/
def reconcileInvoice (invoice : XeroInvoice) (config : InterestConfig)
    (interestInvoiceId interestInvoiceNumber : String)
    (ledger : List InterestLedgerEntry) (asOfDate : ℤ) :
    ReconciliationResult × List InterestLedgerEntry :=
  reconcileInvoiceWith invoice config interestInvoiceId interestInvoiceNumber
    ledger asOfDate (monthKeyOfDay asOfDate)

/-- The per-invoice computation of the `runReconciliation` loop in
`services/reconciliation.ts` (lines 338–393): should-owe, ledger charge with
the voided-interest-invoice reset, delta, reason and action classification.
`interestInvoiceVoided` is the `isInvoiceVoided` collaborator. -/
def runReconInvoiceResult (config : InterestConfig)
    (interestInvoiceVoided : String → Bool)
    (ledger : List InterestLedgerEntry) (asOfDate : ℤ)
    (invoice : XeroInvoice) : ReconciliationResult :=
  let so := calculateShouldOwe invoice config asOfDate
  let shouldOwe := so.shouldOwe
  let charged := getCurrentChargedAmount ledger invoice.invoiceID
  let previousEntry := getLatestLedgerEntryForInvoice ledger invoice.invoiceID
  let previouslyCharged :=
    match previousEntry with
    | some pe => if interestInvoiceVoided pe.interestInvoiceId then 0 else charged
    | none => charged
  let delta := roundMoney (shouldOwe - previouslyCharged)
  let reason :=
    match previousEntry with
    | some pe => determineReason (some pe) invoice
    | none => RReason.Initial
  let action :=
    if 1/100 ≤ |delta| then
      if 0 < delta then
        (if previouslyCharged = 0 then RAction.Created else RAction.Updated)
      else
        (if shouldOwe = 0 then RAction.Credited else RAction.Updated)
    else RAction.NoChange
  { sourceInvoiceId := invoice.invoiceID
    sourceInvoiceNumber := invoice.invoiceNumber
    shouldOwe := shouldOwe, previouslyCharged := previouslyCharged
    delta := delta, action := action, reason := reason
    interestInvoiceId := none, error := none }

/-- The ledger entry `runReconciliation` writes (live mode) for a changed
per-invoice result. -/
def runReconEntry (config : InterestConfig)
    (interestInvoiceId interestInvoiceNumber periodMonth : String)
    (asOfDate : ℤ) (invoice : XeroInvoice) (r : ReconciliationResult) :
    InterestLedgerEntry :=
  { sourceInvoiceId := r.sourceInvoiceId
    sourceInvoiceNumber := r.sourceInvoiceNumber
    interestInvoiceId := interestInvoiceId
    interestInvoiceNumber := interestInvoiceNumber
    chargeMonth := periodMonth
    action := r.action
    previousAmount := r.previouslyCharged
    newAmount := r.shouldOwe
    delta := r.delta
    reason := r.reason
    sourceDueDate := invoice.dueDate
    sourceAmountDue := invoice.amountDue
    daysOverdue := (calculateShouldOwe invoice config asOfDate).daysOverdue
    rate := config.annualRate / 100
    contactId := config.xeroContactId
    contactName := config.contactName }

/-- `runReconciliation` from `services/reconciliation.ts`, restricted to its
ledger-relevant behaviour: the per-invoice results and the ledger writes.
`overdueInvoices` is the `getOverdueInvoices` collaborator response,
`interestInvoiceVoided` the `isInvoiceVoided` collaborator, and the interest
invoice id/number come from `getOrCreateInterestInvoice`. In dry-run mode no
entry is written; in live mode exactly the changed results are logged. (The
subsequent invoice/credit-note mutations never touch the ledger.) -/
def runReconciliation (config : InterestConfig)
    (overdueInvoices : List XeroInvoice) (interestInvoiceVoided : String → Bool)
    (interestInvoiceId interestInvoiceNumber : String)
    (ledger : List InterestLedgerEntry) (asOfDate : ℤ) (dryRun : Bool) :
    List ReconciliationResult × List InterestLedgerEntry :=
  let results := overdueInvoices.map
    (runReconInvoiceResult config interestInvoiceVoided ledger asOfDate)
  if dryRun then (results, ledger)
  else
    let periodMonth := monthKeyOfDay asOfDate
    let newEntries := results.filterMap (fun r =>
      if r.action = RAction.NoChange then none
      else
        match overdueInvoices.find? (fun i => i.invoiceID == r.sourceInvoiceId) with
        | some invoice => some (runReconEntry config interestInvoiceId
            interestInvoiceNumber periodMonth asOfDate invoice r)
        | none => none)
    (results, ledger ++ newEntries)

/-! ### Monthly reconciliation (`services/monthlyReconciliation.ts`)

The Xero collaborator is modelled as explicit state: the interest invoices it
holds (searched by reference string in `getOrCreateInterestInvoice`, mutated
by `moveToDraft` / `authorizeInvoice`) and the credit notes created. The
rate-limiting delays and the voided-status memoisation cache are semantically
transparent for a single-threaded run over a fixed state and are not
modelled. Line-item contents and invoice dates are write-only for the
engine's control flow and are not tracked. -/

/-- An interest invoice as held by the external accounting platform
(the fields the engine's control flow reads back). -/
structure XInvoice where
  invoiceId : String
  invoiceNumber : String
  contactId : String
  reference : String
  status : XeroStatus
  amountPaid : ℚ
  hasCreditNotes : Bool
deriving DecidableEq, Repr

/-- External accounting-platform state: interest invoices, created credit
notes (reference, amount), and a fresh-id counter. -/
structure XeroState where
  invoices : List XInvoice
  creditNotes : List (String × ℚ)
  nextId : ℕ
deriving DecidableEq, Repr

/-- The deterministic idempotency reference string
`[FORIT-INT] Interest Charges - <periodMonth>` from `services/xero.ts`. -/
def interestReference (periodMonth : String) : String :=
  "[FORIT-INT] Interest Charges - " ++ periodMonth

/-- `getOrCreateInterestInvoice` from `services/xero.ts`: search for a
non-voided, non-deleted invoice of this contact tagged with the period's
reference string; reuse it, else create a new draft with a fresh id. -/
def getOrCreateInterestInvoice (st : XeroState) (contactId periodMonth : String) :
    (String × String × Bool) × XeroState :=
  match st.invoices.find? (fun i =>
      i.contactId == contactId && i.reference == interestReference periodMonth &&
      !(i.status == XeroStatus.VOIDED) && !(i.status == XeroStatus.DELETED)) with
  | some inv => ((inv.invoiceId, inv.invoiceNumber, false), st)
  | none =>
    let invoiceId := "INT-" ++ toString st.nextId
    let invoiceNumber := "INV-INT-" ++ toString st.nextId
    let newInv : XInvoice :=
      { invoiceId := invoiceId, invoiceNumber := invoiceNumber
        contactId := contactId, reference := interestReference periodMonth
        status := XeroStatus.DRAFT, amountPaid := 0, hasCreditNotes := false }
    ((invoiceId, invoiceNumber, true),
      { st with invoices := st.invoices ++ [newInv], nextId := st.nextId + 1 })

/-- `isInvoiceVoided` from `services/xero.ts`: a missing invoice is treated
as voided. -/
def isInvoiceVoidedS (st : XeroState) (invoiceId : String) : Bool :=
  match st.invoices.find? (fun i => i.invoiceId == invoiceId) with
  | none => true
  | some inv => isVoidedStatus inv.status

/-- `canModifyInvoice` from `services/xero.ts`:
(canModify, status, isPaid). -/
def canModifyInvoiceS (st : XeroState) (invoiceId : String) :
    Bool × XeroStatus × Bool :=
  match st.invoices.find? (fun i => i.invoiceId == invoiceId) with
  | none => (false, XeroStatus.DELETED, false)
  | some inv =>
    let isPaid := inv.status == XeroStatus.PAID || 0 < inv.amountPaid
    let canModify := !isPaid && !inv.hasCreditNotes &&
      !(inv.status == XeroStatus.VOIDED) && !(inv.status == XeroStatus.DELETED)
    (canModify, inv.status, isPaid)

/-- Status update of one invoice in the external state
(`moveToDraft` / `authorizeInvoice`). -/
def setStatus (st : XeroState) (invoiceId : String) (s : XeroStatus) : XeroState :=
  { st with invoices := st.invoices.map (fun i =>
      if i.invoiceId == invoiceId then { i with status := s } else i) }

/-- `createInvoice` from `services/xero.ts` (authorised invoice with the
period reference, fresh id). -/
def createInvoiceS (st : XeroState) (contactId reference : String) :
    (String × String) × XeroState :=
  let invoiceId := "INT-" ++ toString st.nextId
  let invoiceNumber := "INV-INT-" ++ toString st.nextId
  let newInv : XInvoice :=
    { invoiceId := invoiceId, invoiceNumber := invoiceNumber
      contactId := contactId, reference := reference
      status := XeroStatus.AUTHORISED, amountPaid := 0, hasCreditNotes := false }
  ((invoiceId, invoiceNumber),
   { st with nextId := st.nextId + 1, invoices := st.invoices ++ [newInv] })

/-- `createCreditNote` from `services/xero.ts` (recorded as reference and
amount). -/
def createCreditNoteS (st : XeroState) (reference : String) (amount : ℚ) :
    XeroState :=
  { st with creditNotes := st.creditNotes ++ [(reference, amount)] }

/-- `getMonthsBetween` from `services/monthlyReconciliation.ts`, as linear
month indices: every calendar month from the start date's month through the
end date's month. -/
def getMonthsBetween (startDate endDate : ℤ) : List ℤ :=
  let a := monthOfDay startDate
  let b := monthOfDay endDate
  (List.range (b - a + 1).toNat).map (fun k => a + (k : ℤ))

/-- First day of a calendar month (`getMonthBounds(...).start`). -/
def monthStart (mi : ℤ) : ℤ := civilToDays (monthYear mi) (monthOfIndex mi) 1

/-- Last day of a calendar month (`getMonthBounds(...).end`, date part;
JS `new Date(year, month, 0)` is the day before the next month's first). -/
def monthEnd (mi : ℤ) : ℤ := monthStart (mi + 1) - 1

/-- `getDaysOverdueInMonth` from `services/monthlyReconciliation.ts`:
days within the month on or after `dueDate + gracePeriodDays`. The source's
millisecond arithmetic (`monthEnd` at 23:59:59.999) makes the JS comparison
`interestStartDate > monthEnd` equal to `monthEnd < interestStart` on day
indices and the day count `monthEnd − effectiveStart + 1`. -/
def getDaysOverdueInMonth (dueDate gracePeriodDays mi : ℤ) : ℤ :=
  let interestStartDate := dueDate + gracePeriodDays
  if monthEnd mi < interestStartDate then 0
  else
    let effectiveStart := max (monthStart mi) interestStartDate
    max 0 (monthEnd mi - effectiveStart + 1)

/-- `calculateMonthlyInterest` from `services/monthlyReconciliation.ts`:
(interest, daysInMonth), computed on the flat current amount-due. -/
def calculateMonthlyInterest (invoice : XeroInvoice) (config : InterestConfig)
    (mi : ℤ) : ℚ × ℤ :=
  let daysInMonth := getDaysOverdueInMonth invoice.dueDate config.minDaysOverdue mi
  if daysInMonth ≤ 0 then (0, 0)
  else if invoice.amountDue ≤ 0 then (0, daysInMonth)
  else
    (roundMoney (invoice.amountDue * (config.annualRate / 100 / 365) * (daysInMonth : ℚ)),
     daysInMonth)

/-- `getEarliestInterestDate` from `services/monthlyReconciliation.ts`. -/
def getEarliestInterestDate (invoices : List XeroInvoice)
    (gracePeriodDays : ℤ) : Option ℤ :=
  invoices.foldl (fun earliest invoice =>
    let interestStartDate := invoice.dueDate + gracePeriodDays
    match earliest with
    | none => some interestStartDate
    | some e => if interestStartDate < e then some interestStartDate else some e)
    none

/-- `MonthlyReconciliationResult` from `services/monthlyReconciliation.ts`. -/
structure MonthlyReconciliationResult where
  sourceInvoiceId : String
  sourceInvoiceNumber : String
  chargeMonth : String
  shouldOwe : ℚ
  previouslyCharged : ℚ
  delta : ℚ
  action : RAction
  reason : RReason
deriving DecidableEq, Repr

/-- `MonthlyResult` from `services/monthlyReconciliation.ts`. -/
structure MonthlyResult where
  chargeMonth : String
  invoiceNumber : String
  invoiceId : String
  totalInterest : ℚ
  lineItems : ℕ
  isNew : Bool
deriving DecidableEq, Repr

/-- The per-invoice step of the monthly loop (`runMonthlyReconciliation`
lines 246–306): monthly interest, per-month ledger charge with the
voided-interest-invoice reset, delta, action and reason; `none` when the
invoice is skipped for this month or produces no pushable result. -/
def monthlyInvoiceResult (config : InterestConfig)
    (ledger : List InterestLedgerEntry) (st : XeroState) (mi : ℤ)
    (invoice : XeroInvoice) : Option MonthlyReconciliationResult :=
  let r := calculateMonthlyInterest invoice config mi
  let shouldOwe := r.1
  let daysInMonth := r.2
  if shouldOwe ≤ 0 ∧ daysInMonth ≤ 0 then none
  else
    let cm := monthKey mi
    let charged := getChargedAmountForMonth ledger invoice.invoiceID cm
    let previousEntry := getLatestLedgerEntryForMonth ledger invoice.invoiceID cm
    let previouslyCharged :=
      match previousEntry with
      | some pe => if isInvoiceVoidedS st pe.interestInvoiceId then 0 else charged
      | none => charged
    let delta := roundMoney (shouldOwe - previouslyCharged)
    let ar : RAction × RReason :=
      if 1/100 ≤ |delta| then
        if 0 < delta then
          ((if previouslyCharged = 0 then RAction.Created else RAction.Updated),
           (if previouslyCharged = 0 then RReason.Initial else RReason.DailyAccrual))
        else
          ((if shouldOwe = 0 then RAction.Credited else RAction.Updated),
           RReason.PartialPayment)
      else (RAction.NoChange, RReason.DailyAccrual)
    if 0 < shouldOwe ∨ ar.1 ≠ RAction.NoChange then
      some { sourceInvoiceId := invoice.invoiceID
             sourceInvoiceNumber := invoice.invoiceNumber
             chargeMonth := cm, shouldOwe := shouldOwe
             previouslyCharged := previouslyCharged, delta := delta
             action := ar.1, reason := ar.2 }
    else none

/-- The ledger entry the monthly loop writes for a changed result. -/
def monthlyEntry (config : InterestConfig) (invoiceId invoiceNumber : String)
    (mi : ℤ) (invoice : XeroInvoice) (r : MonthlyReconciliationResult) :
    InterestLedgerEntry :=
  { sourceInvoiceId := r.sourceInvoiceId
    sourceInvoiceNumber := r.sourceInvoiceNumber
    interestInvoiceId := invoiceId
    interestInvoiceNumber := invoiceNumber
    chargeMonth := monthKey mi
    action := r.action
    previousAmount := r.previouslyCharged
    newAmount := r.shouldOwe
    delta := r.delta
    reason := r.reason
    sourceDueDate := invoice.dueDate
    sourceAmountDue := invoice.amountDue
    daysOverdue := (calculateMonthlyInterest invoice config mi).2
    rate := config.annualRate / 100
    contactId := config.xeroContactId
    contactName := config.contactName }

/-- Accumulated state of a monthly reconciliation run. -/
structure MonthlyState where
  ledger : List InterestLedgerEntry
  xero : XeroState
  monthlyResults : List MonthlyResult
  detailedResults : List MonthlyReconciliationResult
  totalInterest : ℚ
deriving Repr

/-- One month of `runMonthlyReconciliation` (the body of the
`for chargeMonth of monthsToProcess` loop). -/
def processMonth (config : InterestConfig) (overdueInvoices : List XeroInvoice)
    (_asOfDate : ℤ) (dryRun : Bool) (ms : MonthlyState) (mi : ℤ) : MonthlyState :=
  let monthResults := overdueInvoices.filterMap
    (monthlyInvoiceResult config ms.ledger ms.xero mi)
  let monthTotal := monthResults.foldl
    (fun sum r => if 0 < r.shouldOwe then sum + r.shouldOwe else sum) 0
  -- skip months with no interest
  if monthTotal ≤ 0 ∧ monthResults.all (fun r => r.action == RAction.NoChange) then ms
  else
    let ms1 := { ms with totalInterest := ms.totalInterest + monthTotal
                         detailedResults := ms.detailedResults ++ monthResults }
    let lineItemCount := (monthResults.filter (fun r => 0 < r.shouldOwe)).length
    if dryRun then
      { ms1 with monthlyResults := ms1.monthlyResults ++
          [{ chargeMonth := monthKey mi, invoiceNumber := "DRY_RUN"
             invoiceId := "DRY_RUN", totalInterest := monthTotal
             lineItems := lineItemCount, isNew := false }] }
    else
      let gr := getOrCreateInterestInvoice ms1.xero config.xeroContactId (monthKey mi)
      let invoiceId := gr.1.1
      let invoiceNumber := gr.1.2.1
      let isNew := gr.1.2.2
      let st1 := gr.2
      let newEntries := monthResults.filterMap (fun r =>
        if r.action = RAction.NoChange then none
        else
          match overdueInvoices.find? (fun i => i.invoiceID == r.sourceInvoiceId) with
          | some invoice => some (monthlyEntry config invoiceId invoiceNumber mi invoice r)
          | none => none)
      let ledger1 := ms1.ledger ++ newEntries
      let cmi := canModifyInvoiceS st1 invoiceId
      let canModify := cmi.1
      let isPaid := cmi.2.2
      let netChange := roundMoney (monthResults.foldl (fun sum r => sum + r.delta) 0)
      let mr : MonthlyResult :=
        { chargeMonth := monthKey mi, invoiceNumber := invoiceNumber
          invoiceId := invoiceId, totalInterest := monthTotal
          lineItems := lineItemCount, isNew := isNew }
      if canModify then
        -- move to draft (if needed), update dates and line items, authorise
        let st2 := setStatus (setStatus st1 invoiceId XeroStatus.DRAFT)
          invoiceId XeroStatus.AUTHORISED
        { ledger := ledger1, xero := st2
          monthlyResults := ms1.monthlyResults ++ [mr]
          detailedResults := ms1.detailedResults
          totalInterest := ms1.totalInterest }
      else if isPaid ∧ netChange < 0 then
        { ledger := ledger1
          xero := createCreditNoteS st1 (interestReference (monthKey mi)) |netChange|
          monthlyResults := ms1.monthlyResults ++ [mr]
          detailedResults := ms1.detailedResults
          totalInterest := ms1.totalInterest }
      else if isPaid ∧ 0 < netChange then
        { ledger := ledger1
          xero := (createInvoiceS st1 config.xeroContactId
            (interestReference (monthKey mi))).2
          monthlyResults := ms1.monthlyResults ++ [mr]
          detailedResults := ms1.detailedResults
          totalInterest := ms1.totalInterest }
      else
        { ledger := ledger1, xero := st1
          monthlyResults := ms1.monthlyResults ++ [mr]
          detailedResults := ms1.detailedResults
          totalInterest := ms1.totalInterest }

/-- `runMonthlyReconciliation` from `services/monthlyReconciliation.ts`:
one interest invoice per calendar month from the earliest interest start
to `asOfDate`. -/
def runMonthlyReconciliation (config : InterestConfig)
    (overdueInvoices : List XeroInvoice) (st0 : XeroState)
    (ledger0 : List InterestLedgerEntry) (asOfDate : ℤ) (dryRun : Bool) :
    MonthlyState :=
  let ms0 : MonthlyState :=
    { ledger := ledger0, xero := st0, monthlyResults := []
      detailedResults := [], totalInterest := 0 }
  if overdueInvoices.isEmpty then ms0
  else
    match getEarliestInterestDate overdueInvoices config.minDaysOverdue with
    | none => ms0
    | some earliestDate =>
      (getMonthsBetween earliestDate asOfDate).foldl
        (processMonth config overdueInvoices asOfDate dryRun) ms0

/-! ### Exception propagation (`reconcileInvoice` vs the `runReconciliation`
loop)

External collaborator calls can throw. This is modelled with an explicit
error channel: `dbFailure` injects a failure of the first external call made
for a given source invoice (the `getCurrentChargedAmount` store read). The
`try/catch` of `reconcileInvoice` turns such a failure into a result whose
`error` field is set; the per-invoice loop of `runReconciliation` has no
handler, so the failure short-circuits it. -/

/-- Fallible `getCurrentChargedAmount`: the store read for one source
invoice either fails with a message or returns the sum of deltas. -/
def getCurrentChargedAmountE (dbFailure : String → Option String)
    (ledger : List InterestLedgerEntry) (sourceInvoiceId : String) :
    Except String ℚ :=
  match dbFailure sourceInvoiceId with
  | some msg => Except.error msg
  | none => Except.ok (getCurrentChargedAmount ledger sourceInvoiceId)

/-- `reconcileInvoice` with its `try/catch`: at the point of a
`getCurrentChargedAmount` failure only `result.shouldOwe` has been assigned,
and the catch clause records the message in `result.error` and returns the
partial result; the ledger is untouched. Without a failure this is the
success path `reconcileInvoice`. -/
def reconcileInvoiceE (dbFailure : String → Option String)
    (invoice : XeroInvoice) (config : InterestConfig)
    (interestInvoiceId interestInvoiceNumber : String)
    (ledger : List InterestLedgerEntry) (asOfDate : ℤ) :
    ReconciliationResult × List InterestLedgerEntry :=
  match getCurrentChargedAmountE dbFailure ledger invoice.invoiceID with
  | Except.error msg =>
    ({ sourceInvoiceId := invoice.invoiceID
       sourceInvoiceNumber := invoice.invoiceNumber
       shouldOwe := (calculateShouldOwe invoice config asOfDate).shouldOwe
       previouslyCharged := 0, delta := 0, action := RAction.NoChange
       reason := RReason.Initial, interestInvoiceId := none
       error := some msg }, ledger)
  | Except.ok _ =>
    reconcileInvoice invoice config interestInvoiceId interestInvoiceNumber
      ledger asOfDate

/-- A batch driven through `reconcileInvoice` call by call: every invoice is
processed, failures only mark that invoice's result. -/
def reconcileBatchE (dbFailure : String → Option String)
    (invoices : List XeroInvoice) (config : InterestConfig)
    (interestInvoiceId interestInvoiceNumber : String)
    (ledger : List InterestLedgerEntry) (asOfDate : ℤ) :
    List ReconciliationResult × List InterestLedgerEntry :=
  invoices.foldl (fun acc invoice =>
    let out := reconcileInvoiceE dbFailure invoice config interestInvoiceId
      interestInvoiceNumber acc.2 asOfDate
    (acc.1 ++ [out.1], out.2)) ([], ledger)

/-- The per-invoice loop of `runReconciliation` (lines 338–393) with the same
fallible store read: there is no `try/catch` inside the loop, so a failure
propagates and the remaining invoices are never processed. -/
def runReconciliationResultsE (dbFailure : String → Option String)
    (config : InterestConfig) (interestInvoiceVoided : String → Bool)
    (ledger : List InterestLedgerEntry) (asOfDate : ℤ) :
    List XeroInvoice → Except String (List ReconciliationResult)
| [] => Except.ok []
| invoice :: rest =>
  match getCurrentChargedAmountE dbFailure ledger invoice.invoiceID with
  | Except.error msg => Except.error msg
  | Except.ok _ =>
    match runReconciliationResultsE dbFailure config interestInvoiceVoided
        ledger asOfDate rest with
    | Except.error msg => Except.error msg
    | Except.ok results =>
      Except.ok (runReconInvoiceResult config interestInvoiceVoided ledger
        asOfDate invoice :: results)

/-! ### Legacy per-invoice calculator (`utils/calculations.ts`) -/

/-- `InterestCalculation` from `types/index.ts`. -/
structure InterestCalculation where
  sourceInvoice : XeroInvoice
  principal : ℚ
  daysOverdue : ℤ
  daysToCharge : ℤ
  rate : ℚ
  interestAmount : ℚ
  periodStart : ℤ
  periodEnd : ℤ
  alreadyCharged : ℚ
  netInterest : ℚ
deriving DecidableEq, Repr

/-- `calculateInterest` from `utils/calculations.ts`. -/
def calculateInterest (invoice : XeroInvoice) (config : InterestConfig)
    (asOfDate : ℤ) : Option InterestCalculation :=
  let totalDaysOverdue := daysOverdue invoice.dueDate asOfDate
  if totalDaysOverdue < config.minDaysOverdue then none
  else
    let effectiveDaysOverdue := totalDaysOverdue - config.minDaysOverdue
    if effectiveDaysOverdue ≤ 0 then none
    else
      let principal := invoice.amountDue
      if principal ≤ 0 then none
      else
        let rate := config.annualRate / 100
        let dailyRate := rate / 365
        let interestAmount :=
          roundMoney (principal * dailyRate * (effectiveDaysOverdue : ℚ))
        some { sourceInvoice := invoice, principal := principal
               daysOverdue := totalDaysOverdue, daysToCharge := effectiveDaysOverdue
               rate := rate, interestAmount := interestAmount
               periodStart := invoice.dueDate, periodEnd := asOfDate
               alreadyCharged := 0, netInterest := interestAmount }

/-- `meetsMinimum` from `utils/calculations.ts`:
`roundMoney(amount) >= minimum`. -/
def meetsMinimum (amount minimum : ℚ) : Bool :=
  if minimum ≤ roundMoney amount then true else false

/-- A skipped invoice record of `calculateBatchInterest`
(invoice number and the reason class of the skip message). -/
structure SkippedInvoice where
  invoiceNumber : String
  reasonClass : String
deriving DecidableEq, Repr

/-- Result of `calculateBatchInterest`. -/
structure BatchInterestResult where
  calculations : List InterestCalculation
  totalInterest : ℚ
  skipped : List SkippedInvoice
deriving DecidableEq, Repr

/-- The loop body of `calculateBatchInterest` from `utils/calculations.ts`:
skip voided/paid/zero-due/in-grace/below-minimum invoices, collect the rest. -/
def batchStep (config : InterestConfig) (asOfDate : ℤ)
    (acc : List InterestCalculation × List SkippedInvoice)
    (invoice : XeroInvoice) : List InterestCalculation × List SkippedInvoice :=
  if isVoidedStatus invoice.status then
    (acc.1, acc.2 ++ [⟨invoice.invoiceNumber, "Invoice voided/deleted"⟩])
  else if invoice.status = XeroStatus.PAID then
    (acc.1, acc.2 ++ [⟨invoice.invoiceNumber, "Invoice paid"⟩])
  else if invoice.amountDue ≤ 0 then
    (acc.1, acc.2 ++ [⟨invoice.invoiceNumber, "No amount due"⟩])
  else
    match calculateInterest invoice config asOfDate with
    | none => (acc.1, acc.2 ++ [⟨invoice.invoiceNumber, "Within grace period"⟩])
    | some c =>
      if !meetsMinimum c.netInterest config.minChargeAmount then
        (acc.1, acc.2 ++ [⟨invoice.invoiceNumber, "Below minimum"⟩])
      else (acc.1 ++ [c], acc.2)

/-- `calculateBatchInterest` from `utils/calculations.ts`. The free-text skip
messages are represented by their fixed reason class (the below-minimum
message also interpolates the amounts). -/
def calculateBatchInterest (invoices : List XeroInvoice)
    (config : InterestConfig) (asOfDate : ℤ) : BatchInterestResult :=
  let out := invoices.foldl (batchStep config asOfDate) ([], [])
  { calculations := out.1
    totalInterest := roundMoney (out.1.foldl (fun sum c => sum + c.netInterest) 0)
    skipped := out.2 }

/-! ### Shared lemmas -/

/-- A `foldl`-accumulated sum is the map-sum. -/
theorem foldl_add_map {α : Type} (f : α → ℚ) :
    ∀ (l : List α) (a : ℚ), l.foldl (fun s x => s + f x) a = a + (l.map f).sum := by
  intro l
  induction l with
  | nil => intro a; simp
  | cons x xs ih => intro a; simp [ih]; ring

/-- Field characterisation of `createPeriod`. -/
theorem createPeriod_eq (s e : ℤ) (b : ℚ) (g : ℤ) (dr : ℚ) :
    createPeriod s e b g dr =
      { startDate := s, endDate := e, balance := b, daysInPeriod := e - s
        daysAfterGrace := if e ≤ g then 0 else if g ≤ s then e - s else e - g
        interestForPeriod := roundMoney (b * dr *
          ((if e ≤ g then 0 else if g ≤ s then e - s else e - g : ℤ) : ℚ)) } := rfl

/-- The grace split of a period starting at the due date equals
`max 0 (days − grace)` for a nonnegative grace period. -/
theorem dag_from_dueDate (d e gp : ℤ) (hg : 0 ≤ gp) :
    (if e ≤ d + gp then 0 else if d + gp ≤ d then e - d else e - (d + gp)) =
      max 0 (e - d - gp) := by
  rcases le_or_lt e (d + gp) with h | h
  · rw [if_pos h]; omega
  · rw [if_neg (not_le.mpr h)]
    rcases le_or_lt (d + gp) d with h2 | h2
    · rw [if_pos h2]; omega
    · rw [if_neg (not_le.mpr h2)]; omega

/-- Closed form of `calculateTimelineInterest` for an invoice with no
balance-changing events: a single period from due date to as-of date. -/
theorem timeline_no_events (invoice : XeroInvoice) (config : InterestConfig)
    (t : ℤ) (hp : invoice.payments = []) (hc : invoice.creditNotes = [])
    (ht : invoice.dueDate < t) (hT : 0 < invoice.total) :
    calculateTimelineInterest invoice config t =
      { periods := [createPeriod invoice.dueDate t invoice.total
          (invoice.dueDate + config.minDaysOverdue) (config.annualRate / 100 / 365)]
        totalInterest := roundMoney (0 + (createPeriod invoice.dueDate t invoice.total
          (invoice.dueDate + config.minDaysOverdue)
          (config.annualRate / 100 / 365)).interestForPeriod)
        totalDaysOverdue := t - invoice.dueDate
        effectiveDaysCharged := 0 + (createPeriod invoice.dueDate t invoice.total
          (invoice.dueDate + config.minDaysOverdue)
          (config.annualRate / 100 / 365)).daysAfterGrace } := by
  have hev : timelineEvents invoice = [] := by
    simp [timelineEvents, hp, hc, sortByDate]
  rw [calculateTimelineInterest]
  rw [if_neg (not_le.mpr ht), hev]
  simp only [List.foldl_nil]
  rw [if_pos ⟨ht, hT⟩]
  have hd : (createPeriod invoice.dueDate t invoice.total
      (invoice.dueDate + config.minDaysOverdue)
      (config.annualRate / 100 / 365)).daysInPeriod = t - invoice.dueDate := rfl
  rw [if_pos (by rw [hd]; omega)]
  simp [List.foldl_cons]

/-- Closed form of `calculateTimelineInterest` for an invoice with exactly
one payment strictly between due date and as-of date, smaller than the
total: two balance periods. -/
theorem timeline_one_payment (invoice : XeroInvoice) (config : InterestConfig)
    (t p : ℤ) (A : ℚ)
    (hp : invoice.payments = [⟨p, A⟩]) (hc : invoice.creditNotes = [])
    (hd : invoice.dueDate < p) (hpt : p < t) (hAT : A < invoice.total)
    (hT : 0 < invoice.total) :
    calculateTimelineInterest invoice config t =
      { periods := [createPeriod invoice.dueDate p invoice.total
          (invoice.dueDate + config.minDaysOverdue) (config.annualRate / 100 / 365),
          createPeriod p t (invoice.total - A)
          (invoice.dueDate + config.minDaysOverdue) (config.annualRate / 100 / 365)]
        totalInterest := roundMoney (0 + (createPeriod invoice.dueDate p invoice.total
          (invoice.dueDate + config.minDaysOverdue)
          (config.annualRate / 100 / 365)).interestForPeriod +
          (createPeriod p t (invoice.total - A)
          (invoice.dueDate + config.minDaysOverdue)
          (config.annualRate / 100 / 365)).interestForPeriod)
        totalDaysOverdue := t - invoice.dueDate
        effectiveDaysCharged := 0 + (createPeriod invoice.dueDate p invoice.total
          (invoice.dueDate + config.minDaysOverdue)
          (config.annualRate / 100 / 365)).daysAfterGrace +
          (createPeriod p t (invoice.total - A)
          (invoice.dueDate + config.minDaysOverdue)
          (config.annualRate / 100 / 365)).daysAfterGrace } := by
  have hev : timelineEvents invoice = [⟨p, A⟩] := by
    simp [timelineEvents, hp, hc, sortByDate, insertByDate]
  have hd1 : (createPeriod invoice.dueDate p invoice.total
      (invoice.dueDate + config.minDaysOverdue)
      (config.annualRate / 100 / 365)).daysInPeriod = p - invoice.dueDate := rfl
  have hd2 : (createPeriod p t (invoice.total - A)
      (invoice.dueDate + config.minDaysOverdue)
      (config.annualRate / 100 / 365)).daysInPeriod = t - p := rfl
  have hstep : timelineStep invoice.dueDate (invoice.dueDate + config.minDaysOverdue)
      (config.annualRate / 100 / 365) ([], invoice.total, invoice.dueDate) ⟨p, A⟩ =
      ([createPeriod invoice.dueDate p invoice.total
          (invoice.dueDate + config.minDaysOverdue) (config.annualRate / 100 / 365)],
        invoice.total - A, p) := by
    rw [timelineStep]
    dsimp only
    rw [if_neg (not_le.mpr hd), if_pos ⟨hd, hT⟩, hd1,
      if_pos (show (0 : ℤ) < p - invoice.dueDate by omega),
      max_eq_right (by linarith : (0 : ℚ) ≤ invoice.total - A)]
    simp
  rw [calculateTimelineInterest]
  rw [if_neg (not_le.mpr (lt_trans hd hpt)), hev]
  simp only [List.foldl_cons, List.foldl_nil]
  rw [hstep]
  dsimp only
  rw [if_pos ⟨hpt, (by linarith : (0 : ℚ) < invoice.total - A)⟩, hd2,
    if_pos (show (0 : ℤ) < t - p by omega)]
  simp [List.foldl_cons]

/-- The invoice of spec Example 1: $100,000 due 2025-01-01 (day 20089),
no payments. -/
def ex1Invoice : XeroInvoice :=
  { invoiceID := "EX1", invoiceNumber := "INV-EX1", status := XeroStatus.AUTHORISED
    dueDate := 20089, total := 100000, amountDue := 100000, amountPaid := 0
    payments := [], creditNotes := [] }

/-- The config of spec Examples 1 and 2: 24 %/yr, 30-day grace. -/
def ex1Config : InterestConfig :=
  { xeroContactId := "C-EX", contactName := "Example", annualRate := 24
    minDaysOverdue := 30, minChargeAmount := 0 }

/-- The invoice of spec Example 2: as Example 1 plus $50,000 paid
2025-02-01 (day 20120). -/
def ex2Invoice : XeroInvoice :=
  { ex1Invoice with payments := [⟨20120, 50000⟩] }

/-- C2: with no payment or credit-note events and `asOfDate` past the due
date, `calculateTimelineInterest` produces exactly one balance period
`[dueDate, asOfDate)` at the full total, and the total interest is
`round2(total × (rate/100/365) × max(0, days − grace))`; in particular
Example 1 ($100,000, 24 %/yr, 30-day grace, due 2025-01-01, as of
2025-03-01) yields 1906.85. -/
theorem claim_C2_timeline_no_events (invoice : XeroInvoice)
    (config : InterestConfig) (t : ℤ)
    (hp : invoice.payments = []) (hc : invoice.creditNotes = [])
    (ht : invoice.dueDate < t) (hT : 0 < invoice.total)
    (hg : 0 ≤ config.minDaysOverdue) :
    (calculateTimelineInterest invoice config t).periods =
      [{ startDate := invoice.dueDate, endDate := t, balance := invoice.total
         daysInPeriod := t - invoice.dueDate
         daysAfterGrace := max 0 (t - invoice.dueDate - config.minDaysOverdue)
         interestForPeriod := roundMoney (invoice.total * (config.annualRate / 100 / 365) *
           ((max 0 (t - invoice.dueDate - config.minDaysOverdue) : ℤ) : ℚ)) }] ∧
    (calculateTimelineInterest invoice config t).totalInterest =
      roundMoney (invoice.total * (config.annualRate / 100 / 365) *
        ((max 0 (t - invoice.dueDate - config.minDaysOverdue) : ℤ) : ℚ)) ∧
    (calculateTimelineInterest ex1Invoice ex1Config 20148).totalInterest
      = 190685 / 100 := by
  have key := timeline_no_events invoice config t hp hc ht hT
  have hper : createPeriod invoice.dueDate t invoice.total
      (invoice.dueDate + config.minDaysOverdue) (config.annualRate / 100 / 365) =
      { startDate := invoice.dueDate, endDate := t, balance := invoice.total
        daysInPeriod := t - invoice.dueDate
        daysAfterGrace := max 0 (t - invoice.dueDate - config.minDaysOverdue)
        interestForPeriod := roundMoney (invoice.total * (config.annualRate / 100 / 365) *
          ((max 0 (t - invoice.dueDate - config.minDaysOverdue) : ℤ) : ℚ)) } := by
    rw [createPeriod_eq]
    rw [dag_from_dueDate invoice.dueDate t config.minDaysOverdue hg]
  refine ⟨?_, ?_, ?_⟩
  · rw [key, hper]
  · rw [key, hper]
    simp only [zero_add]
    exact roundMoney_eq_self (roundMoney_centMul _)
  · norm_num [calculateTimelineInterest, timelineEvents, sortByDate, createPeriod,
      ex1Invoice, ex1Config, roundMoney, round_eq]

/-- Witness for C2 at Example 1's inputs. -/
theorem claim_C2_witness :
    ex1Invoice.payments = [] ∧ ex1Invoice.creditNotes = [] ∧
    ex1Invoice.dueDate < 20148 ∧ 0 < ex1Invoice.total ∧
    0 ≤ ex1Config.minDaysOverdue ∧
    (calculateTimelineInterest ex1Invoice ex1Config 20148).totalInterest
      = 190685 / 100 :=
  ⟨rfl, rfl, by norm_num [ex1Invoice], by norm_num [ex1Invoice],
   by norm_num [ex1Config],
   (claim_C2_timeline_no_events ex1Invoice ex1Config 20148 rfl rfl
     (by norm_num [ex1Invoice]) (by norm_num [ex1Invoice])
     (by norm_num [ex1Config])).2.2⟩

/-- C3: with a single payment after the due date (smaller than the total)
the timeline closes one period `[dueDate, paymentDate)` at the full total and
one period `[paymentDate, asOfDate)` at the reduced balance, and the total
interest is the sum of the two per-period 2-decimal roundings (not a single
rounding over the whole span); Example 2 gives
`round2(100000 × 0.24/365 × 1) + round2(50000 × 0.24/365 × 28) = 986.30`. -/
theorem claim_C3_timeline_one_payment (invoice : XeroInvoice)
    (config : InterestConfig) (t p : ℤ) (A : ℚ)
    (hp : invoice.payments = [⟨p, A⟩]) (hc : invoice.creditNotes = [])
    (hd : invoice.dueDate < p) (hpt : p < t) (hAT : A < invoice.total)
    (hT : 0 < invoice.total) :
    ((calculateTimelineInterest invoice config t).periods.map
        (fun per => (per.startDate, per.endDate, per.balance))) =
      [(invoice.dueDate, p, invoice.total), (p, t, invoice.total - A)] ∧
    (calculateTimelineInterest invoice config t).totalInterest =
      roundMoney ((createPeriod invoice.dueDate p invoice.total
        (invoice.dueDate + config.minDaysOverdue)
        (config.annualRate / 100 / 365)).balance * (config.annualRate / 100 / 365) *
        (((createPeriod invoice.dueDate p invoice.total
          (invoice.dueDate + config.minDaysOverdue)
          (config.annualRate / 100 / 365)).daysAfterGrace : ℤ) : ℚ)) +
      roundMoney ((invoice.total - A) * (config.annualRate / 100 / 365) *
        (((createPeriod p t (invoice.total - A)
          (invoice.dueDate + config.minDaysOverdue)
          (config.annualRate / 100 / 365)).daysAfterGrace : ℤ) : ℚ)) ∧
    (calculateTimelineInterest ex2Invoice ex1Config 20148).totalInterest =
      roundMoney (100000 * ((24 : ℚ) / 100 / 365) * 1) +
        roundMoney (50000 * ((24 : ℚ) / 100 / 365) * 28) ∧
    (calculateTimelineInterest ex2Invoice ex1Config 20148).totalInterest
      = 98630 / 100 := by
  have key := timeline_one_payment invoice config t p A hp hc hd hpt hAT hT
  have hconc : (calculateTimelineInterest ex2Invoice ex1Config 20148).totalInterest
      = 98630 / 100 := by
    norm_num [calculateTimelineInterest, timelineEvents, sortByDate, insertByDate,
      timelineStep, createPeriod, ex2Invoice, ex1Invoice, ex1Config, roundMoney, round_eq]
  refine ⟨?_, ?_, ?_, hconc⟩
  · rw [key]
    simp [createPeriod_eq]
  · rw [key]
    simp only [zero_add]
    have h1 : (createPeriod invoice.dueDate p invoice.total
        (invoice.dueDate + config.minDaysOverdue)
        (config.annualRate / 100 / 365)).interestForPeriod =
        roundMoney ((createPeriod invoice.dueDate p invoice.total
          (invoice.dueDate + config.minDaysOverdue)
          (config.annualRate / 100 / 365)).balance * (config.annualRate / 100 / 365) *
          (((createPeriod invoice.dueDate p invoice.total
            (invoice.dueDate + config.minDaysOverdue)
            (config.annualRate / 100 / 365)).daysAfterGrace : ℤ) : ℚ)) := rfl
    have h2 : (createPeriod p t (invoice.total - A)
        (invoice.dueDate + config.minDaysOverdue)
        (config.annualRate / 100 / 365)).interestForPeriod =
        roundMoney ((invoice.total - A) * (config.annualRate / 100 / 365) *
          (((createPeriod p t (invoice.total - A)
            (invoice.dueDate + config.minDaysOverdue)
            (config.annualRate / 100 / 365)).daysAfterGrace : ℤ) : ℚ)) := rfl
    rw [h1, h2]
    exact roundMoney_eq_self
      ((roundMoney_centMul _).add (roundMoney_centMul _))
  · rw [hconc]
    norm_num [roundMoney, round_eq]

/-- Witness for C3 at Example 2's inputs. -/
theorem claim_C3_witness :
    ex2Invoice.payments = [⟨20120, 50000⟩] ∧ ex2Invoice.creditNotes = [] ∧
    ex2Invoice.dueDate < 20120 ∧ (20120 : ℤ) < 20148 ∧
    (50000 : ℚ) < ex2Invoice.total ∧ 0 < ex2Invoice.total ∧
    (calculateTimelineInterest ex2Invoice ex1Config 20148).totalInterest
      = 98630 / 100 :=
  ⟨rfl, rfl, by norm_num [ex2Invoice, ex1Invoice], by norm_num,
   by norm_num [ex2Invoice, ex1Invoice], by norm_num [ex2Invoice, ex1Invoice],
   (claim_C3_timeline_one_payment ex2Invoice ex1Config 20148 20120 50000 rfl rfl
     (by norm_num [ex2Invoice, ex1Invoice]) (by norm_num)
     (by norm_num [ex2Invoice, ex1Invoice])
     (by norm_num [ex2Invoice, ex1Invoice])).2.2.2⟩

/-- Abbreviation: the computed should-owe of a reconcile call. -/
def shouldOweOf (invoice : XeroInvoice) (config : InterestConfig) (t : ℤ) : ℚ :=
  (calculateShouldOwe invoice config t).shouldOwe

/-- Abbreviation: the ledger's previously-charged amount for an invoice. -/
def prevCharged (ledger : List InterestLedgerEntry) (invoice : XeroInvoice) : ℚ :=
  getCurrentChargedAmount ledger invoice.invoiceID

/-- Abbreviation: the rounded delta of a `reconcileInvoice` call. -/
def deltaOf (invoice : XeroInvoice) (config : InterestConfig)
    (ledger : List InterestLedgerEntry) (t : ℤ) : ℚ :=
  roundMoney (shouldOweOf invoice config t - prevCharged ledger invoice)

/-- The shared action classification of the reconciliation code:
`Created` / `Updated` on a positive delta, `Credited` / `Updated` on a
negative one. -/
def classifyAction (delta previouslyCharged shouldOwe : ℚ) : RAction :=
  if 0 < delta then
    (if previouslyCharged = 0 then RAction.Created else RAction.Updated)
  else
    (if shouldOwe = 0 then RAction.Credited else RAction.Updated)

/-- The result record `reconcileInvoiceWith` returns (shared shape of both
branches). -/
def reconcileResultRecord (invoice : XeroInvoice) (config : InterestConfig)
    (iid : String) (ledger : List InterestLedgerEntry) (t : ℤ)
    (action : RAction) (belowThreshold : Bool) : ReconciliationResult :=
  { sourceInvoiceId := invoice.invoiceID
    sourceInvoiceNumber := invoice.invoiceNumber
    shouldOwe := if isVoidedStatus invoice.status = true then 0
      else shouldOweOf invoice config t
    previouslyCharged := prevCharged ledger invoice
    delta := if isVoidedStatus invoice.status = true then
      -(prevCharged ledger invoice) else deltaOf invoice config ledger t
    action := action
    reason := if isVoidedStatus invoice.status = true then RReason.SourceVoided
      else determineReason (getLatestLedgerEntryForInvoice ledger invoice.invoiceID) invoice
    interestInvoiceId := if belowThreshold then none
      else (if 0 < deltaOf invoice config ledger t then some iid else none)
    error := none }

/-- `reconcileInvoiceWith` below the one-cent threshold: `NoChange`, ledger
untouched. -/
theorem reconcileInvoiceWith_below (invoice : XeroInvoice)
    (config : InterestConfig) (iid inum : String)
    (ledger : List InterestLedgerEntry) (t : ℤ) (pm : String)
    (hδ : |deltaOf invoice config ledger t| < 1/100) :
    reconcileInvoiceWith invoice config iid inum ledger t pm =
      (reconcileResultRecord invoice config iid ledger t RAction.NoChange true,
        ledger) := by
  have hδ' : |roundMoney ((calculateShouldOwe invoice config t).shouldOwe -
      getCurrentChargedAmount ledger invoice.invoiceID)| < 1/100 := hδ
  rw [reconcileInvoiceWith]
  dsimp only
  rw [if_pos hδ']
  rfl

/-- `reconcileInvoiceWith` at or above the one-cent threshold: classified
action, one entry appended. -/
theorem reconcileInvoiceWith_above (invoice : XeroInvoice)
    (config : InterestConfig) (iid inum : String)
    (ledger : List InterestLedgerEntry) (t : ℤ) (pm : String)
    (hδ : 1/100 ≤ |deltaOf invoice config ledger t|) :
    reconcileInvoiceWith invoice config iid inum ledger t pm =
      (reconcileResultRecord invoice config iid ledger t
          (classifyAction (deltaOf invoice config ledger t)
            (prevCharged ledger invoice) (shouldOweOf invoice config t)) false,
        ledger ++ [reconcileEntry invoice config iid inum pm
          (shouldOweOf invoice config t) (prevCharged ledger invoice)
          (deltaOf invoice config ledger t)
          (calculateShouldOwe invoice config t).daysOverdue
          (if isVoidedStatus invoice.status = true then RReason.SourceVoided
           else determineReason (getLatestLedgerEntryForInvoice ledger invoice.invoiceID) invoice)
          (classifyAction (deltaOf invoice config ledger t)
            (prevCharged ledger invoice) (shouldOweOf invoice config t))]) := by
  have hδ' : ¬ |roundMoney ((calculateShouldOwe invoice config t).shouldOwe -
      getCurrentChargedAmount ledger invoice.invoiceID)| < 1/100 := not_lt.mpr hδ
  rw [reconcileInvoiceWith]
  dsimp only
  rw [if_neg hδ']
  rfl

/-- C4 (amended): for a voided/deleted source invoice `reconcileInvoice`
forces `shouldOwe = 0`, `delta = −previouslyCharged` and reason
`SourceVoided` in the returned result only; the one-cent threshold decision
and any written ledger entry use the unforced timeline-computed `shouldOwe`
and `delta = round(shouldOwe − previouslyCharged)` (the entry's reason is
`SourceVoided`). -/
theorem claim_C4_voided_forcing (invoice : XeroInvoice)
    (config : InterestConfig) (iid inum : String)
    (ledger : List InterestLedgerEntry) (t : ℤ)
    (hv : isVoidedStatus invoice.status = true) :
    (reconcileInvoice invoice config iid inum ledger t).1.shouldOwe = 0 ∧
    (reconcileInvoice invoice config iid inum ledger t).1.delta =
      -(prevCharged ledger invoice) ∧
    (reconcileInvoice invoice config iid inum ledger t).1.reason =
      RReason.SourceVoided ∧
    (|deltaOf invoice config ledger t| < 1/100 →
      (reconcileInvoice invoice config iid inum ledger t).1.action =
        RAction.NoChange ∧
      (reconcileInvoice invoice config iid inum ledger t).2 = ledger) ∧
    (1/100 ≤ |deltaOf invoice config ledger t| →
      (reconcileInvoice invoice config iid inum ledger t).2 =
        ledger ++ [reconcileEntry invoice config iid inum (monthKeyOfDay t)
          (shouldOweOf invoice config t) (prevCharged ledger invoice)
          (deltaOf invoice config ledger t)
          (calculateShouldOwe invoice config t).daysOverdue
          RReason.SourceVoided
          (classifyAction (deltaOf invoice config ledger t)
            (prevCharged ledger invoice) (shouldOweOf invoice config t))] ∧
      (reconcileEntry invoice config iid inum (monthKeyOfDay t)
          (shouldOweOf invoice config t) (prevCharged ledger invoice)
          (deltaOf invoice config ledger t)
          (calculateShouldOwe invoice config t).daysOverdue
          RReason.SourceVoided
          (classifyAction (deltaOf invoice config ledger t)
            (prevCharged ledger invoice) (shouldOweOf invoice config t))).newAmount =
        shouldOweOf invoice config t ∧
      (reconcileEntry invoice config iid inum (monthKeyOfDay t)
          (shouldOweOf invoice config t) (prevCharged ledger invoice)
          (deltaOf invoice config ledger t)
          (calculateShouldOwe invoice config t).daysOverdue
          RReason.SourceVoided
          (classifyAction (deltaOf invoice config ledger t)
            (prevCharged ledger invoice) (shouldOweOf invoice config t))).delta =
        deltaOf invoice config ledger t) := by
  by_cases hδ : |deltaOf invoice config ledger t| < 1/100
  · rw [reconcileInvoice, reconcileInvoiceWith_below invoice config iid inum ledger t _ hδ]
    refine ⟨by simp [reconcileResultRecord, hv], by simp [reconcileResultRecord, hv],
      by simp [reconcileResultRecord, hv], fun _ => ⟨rfl, rfl⟩,
      fun h => absurd hδ (not_lt.mpr h)⟩
  · rw [reconcileInvoice, reconcileInvoiceWith_above invoice config iid inum ledger t _
      (le_of_not_lt hδ)]
    refine ⟨by simp [reconcileResultRecord, hv], by simp [reconcileResultRecord, hv],
      by simp [reconcileResultRecord, hv],
      fun h => absurd h (not_lt.mpr (le_of_not_lt hδ)),
      fun _ => ⟨by rw [hv]; simp, rfl, rfl⟩⟩

/-- The voided invoice of the C4/C1 counterexample scenario: $30,000 due
1970-01-01, voided, 10 %/yr, no grace. -/
def c4Invoice : XeroInvoice :=
  { invoiceID := "SRC-V", invoiceNumber := "INV-V", status := XeroStatus.VOIDED
    dueDate := 0, total := 30000, amountDue := 30000, amountPaid := 0
    payments := [], creditNotes := [] }

/-- Config of the C4 counterexample scenario. -/
def c4Config : InterestConfig :=
  { xeroContactId := "C-V", contactName := "Voided", annualRate := 10
    minDaysOverdue := 0, minChargeAmount := 0 }

/-- Prior ledger of the C4 counterexample scenario: $500 already charged. -/
def c4Ledger : List InterestLedgerEntry :=
  [{ sourceInvoiceId := "SRC-V", sourceInvoiceNumber := "INV-V"
     interestInvoiceId := "INT-V", interestInvoiceNumber := "INV-INT-V"
     chargeMonth := "1970-01", action := RAction.Created, previousAmount := 0
     newAmount := 500, delta := 500, reason := RReason.Initial
     sourceDueDate := 0, sourceAmountDue := 30000, daysOverdue := 10
     rate := 1/10, contactId := "C-V", contactName := "Voided" }]

/-- C4 counterexample: a voided invoice with $500 prior charges and
timeline-computed shouldOwe = $600. The written ledger entry carries the
unforced values `newAmount = 600`, `delta = 100` — not the forced
`newAmount = 0`, `delta = −500` the claim asserts — while the returned
result carries the forced `delta = −500`. -/
theorem claim_C4_counterexample :
    isVoidedStatus c4Invoice.status = true ∧
    getCurrentChargedAmount c4Ledger c4Invoice.invoiceID = 500 ∧
    (calculateShouldOwe c4Invoice c4Config 73).shouldOwe = 600 ∧
    (reconcileInvoice c4Invoice c4Config "INT-V" "INV-INT-V" c4Ledger 73).1.shouldOwe = 0 ∧
    (reconcileInvoice c4Invoice c4Config "INT-V" "INV-INT-V" c4Ledger 73).1.delta = -500 ∧
    (reconcileInvoice c4Invoice c4Config "INT-V" "INV-INT-V" c4Ledger 73).2.length = 2 ∧
    ((reconcileInvoice c4Invoice c4Config "INT-V" "INV-INT-V" c4Ledger 73).2.getLast?.map
      (fun e => (e.newAmount, e.delta, e.reason))) =
      some (600, 100, RReason.SourceVoided) ∧
    ¬ ((600 : ℚ) = 0 ∧ (100 : ℚ) = -500) := by
  refine ⟨rfl, ?_, ?_, ?_, ?_, ?_, ?_, by norm_num⟩ <;>
    norm_num [reconcileInvoice, reconcileInvoiceWith, calculateShouldOwe,
      calculateTimelineInterest, timelineEvents, sortByDate, createPeriod,
      getCurrentChargedAmount, getLedgerEntriesBySourceInvoice,
      getLatestLedgerEntryForInvoice, determineReason, isVoidedStatus,
      reconcileEntry, createLedgerEntry, daysOverdue, daysBetween,
      c4Invoice, c4Config, c4Ledger, roundMoney, round_eq]

/-- Witness for C4 (amended) at the voided-invoice scenario. -/
theorem claim_C4_witness :
    isVoidedStatus c4Invoice.status = true ∧
    (reconcileInvoice c4Invoice c4Config "INT-V" "INV-INT-V" c4Ledger 73).1.shouldOwe = 0 ∧
    (reconcileInvoice c4Invoice c4Config "INT-V" "INV-INT-V" c4Ledger 73).1.delta =
      -(prevCharged c4Ledger c4Invoice) ∧
    (reconcileInvoice c4Invoice c4Config "INT-V" "INV-INT-V" c4Ledger 73).1.reason =
      RReason.SourceVoided :=
  ⟨rfl,
   (claim_C4_voided_forcing c4Invoice c4Config "INT-V" "INV-INT-V" c4Ledger 73 rfl).1,
   (claim_C4_voided_forcing c4Invoice c4Config "INT-V" "INV-INT-V" c4Ledger 73 rfl).2.1,
   (claim_C4_voided_forcing c4Invoice c4Config "INT-V" "INV-INT-V" c4Ledger 73 rfl).2.2.1⟩

/-- The action field of a per-invoice result of the `runReconciliation` loop
is the threshold-guarded classification. -/
theorem runReconInvoiceResult_action (config : InterestConfig)
    (vo : String → Bool) (ledger : List InterestLedgerEntry) (t : ℤ)
    (invoice : XeroInvoice) :
    (runReconInvoiceResult config vo ledger t invoice).action =
      (if 1/100 ≤ |(runReconInvoiceResult config vo ledger t invoice).delta| then
        classifyAction (runReconInvoiceResult config vo ledger t invoice).delta
          (runReconInvoiceResult config vo ledger t invoice).previouslyCharged
          (runReconInvoiceResult config vo ledger t invoice).shouldOwe
      else RAction.NoChange) := rfl

/-- The delta field of a per-invoice result of the `runReconciliation` loop
is the rounded difference of its should-owe and previously-charged fields. -/
theorem runReconInvoiceResult_delta (config : InterestConfig)
    (vo : String → Bool) (ledger : List InterestLedgerEntry) (t : ℤ)
    (invoice : XeroInvoice) :
    (runReconInvoiceResult config vo ledger t invoice).delta =
      roundMoney ((runReconInvoiceResult config vo ledger t invoice).shouldOwe -
        (runReconInvoiceResult config vo ledger t invoice).previouslyCharged) := rfl

/-- Counting the entries `runReconciliation` writes: one per result whose
action is not `NoChange`, provided every result's source id occurs among the
invoices. -/
theorem filterMap_entries_length (invoices : List XeroInvoice)
    (f : ReconciliationResult → XeroInvoice → InterestLedgerEntry) :
    ∀ rs : List ReconciliationResult,
      (∀ r ∈ rs, ∃ i ∈ invoices, (i.invoiceID == r.sourceInvoiceId) = true) →
      (rs.filterMap (fun r =>
        if r.action = RAction.NoChange then none
        else
          match invoices.find? (fun i => i.invoiceID == r.sourceInvoiceId) with
          | some invoice => some (f r invoice)
          | none => none)).length =
      (rs.filter (fun r => !(r.action == RAction.NoChange))).length := by
  intro rs
  induction rs with
  | nil => intro _; simp
  | cons r rest ih =>
    intro h
    have hr := h r (List.mem_cons_self r rest)
    have hrest := fun x hx => h x (List.mem_cons_of_mem r hx)
    have hfind : (invoices.find? (fun i => i.invoiceID == r.sourceInvoiceId)).isSome := by
      rw [List.find?_isSome]
      exact hr
    by_cases hnc : r.action = RAction.NoChange
    · simp [List.filterMap_cons, List.filter_cons, hnc, ih hrest]
    · obtain ⟨inv, hinv⟩ := Option.isSome_iff_exists.mp hfind
      simp [List.filterMap_cons, List.filter_cons, hnc, hinv, ih hrest]

/-- C5: the one-cent no-op threshold and the action classification, in both
`reconcileInvoice` and live-mode `runReconciliation`: below the threshold the
action is `NoChange` and no ledger entry is written; otherwise exactly one
entry is written per changed invoice and the action is `Created` (positive
delta, nothing charged before), `Credited` (negative delta, should-owe zero)
or `Updated` otherwise. -/
theorem claim_C5_threshold_actions (invoice : XeroInvoice)
    (config : InterestConfig) (iid inum : String)
    (ledger : List InterestLedgerEntry) (t : ℤ)
    (invoices : List XeroInvoice) (vo : String → Bool) :
    ((|deltaOf invoice config ledger t| < 1/100 →
      (reconcileInvoice invoice config iid inum ledger t).1.action = RAction.NoChange ∧
      (reconcileInvoice invoice config iid inum ledger t).2 = ledger) ∧
     (1/100 ≤ |deltaOf invoice config ledger t| →
      (reconcileInvoice invoice config iid inum ledger t).1.action =
        classifyAction (deltaOf invoice config ledger t)
          (prevCharged ledger invoice) (shouldOweOf invoice config t) ∧
      (∃ e, (reconcileInvoice invoice config iid inum ledger t).2 = ledger ++ [e] ∧
        e.delta = deltaOf invoice config ledger t))) ∧
    (∀ r ∈ (runReconciliation config invoices vo iid inum ledger t false).1,
      r.delta = roundMoney (r.shouldOwe - r.previouslyCharged) ∧
      (|r.delta| < 1/100 → r.action = RAction.NoChange) ∧
      (1/100 ≤ |r.delta| →
        r.action = classifyAction r.delta r.previouslyCharged r.shouldOwe)) ∧
    (∃ newEntries,
      (runReconciliation config invoices vo iid inum ledger t false).2 =
        ledger ++ newEntries ∧
      newEntries.length =
        ((runReconciliation config invoices vo iid inum ledger t false).1.filter
          (fun r => !(r.action == RAction.NoChange))).length) := by
  refine ⟨⟨?_, ?_⟩, ?_, ?_⟩
  · intro hδ
    rw [reconcileInvoice, reconcileInvoiceWith_below invoice config iid inum ledger t _ hδ]
    exact ⟨rfl, rfl⟩
  · intro hδ
    rw [reconcileInvoice, reconcileInvoiceWith_above invoice config iid inum ledger t _ hδ]
    exact ⟨rfl, ⟨_, rfl, rfl⟩⟩
  · intro r hr
    rw [runReconciliation] at hr
    dsimp only at hr
    obtain ⟨inv, _, rfl⟩ := List.mem_map.mp hr
    refine ⟨runReconInvoiceResult_delta config vo ledger t inv, ?_, ?_⟩
    · intro h
      rw [runReconInvoiceResult_action, if_neg (not_le.mpr h)]
    · intro h
      rw [runReconInvoiceResult_action, if_pos h]
  · rw [runReconciliation]
    dsimp only
    refine ⟨_, rfl, ?_⟩
    apply filterMap_entries_length
    intro r hr
    obtain ⟨inv, hinv, rfl⟩ := List.mem_map.mp hr
    exact ⟨inv, hinv, by simp [runReconInvoiceResult]⟩

/-- Witness for C5 at Example 1's inputs (empty ledger, charge created). -/
theorem claim_C5_witness :
    (1 : ℚ)/100 ≤ |deltaOf ex1Invoice ex1Config [] 20148| ∧
    (reconcileInvoice ex1Invoice ex1Config "INT-1" "INV-INT-1" [] 20148).1.action =
      classifyAction (deltaOf ex1Invoice ex1Config [] 20148)
        (prevCharged [] ex1Invoice) (shouldOweOf ex1Invoice ex1Config 20148) := by
  have hδ : (1 : ℚ)/100 ≤ |deltaOf ex1Invoice ex1Config [] 20148| := by
    norm_num [deltaOf, shouldOweOf, prevCharged, calculateShouldOwe,
      calculateTimelineInterest, timelineEvents, sortByDate, createPeriod,
      getCurrentChargedAmount, getLedgerEntriesBySourceInvoice,
      daysOverdue, daysBetween, ex1Invoice, ex1Config, roundMoney, round_eq]
    rw [show |((38137 : ℚ)/20)| = 38137/20 from abs_of_nonneg (by norm_num)]
    norm_num
  exact ⟨hδ, ((claim_C5_threshold_actions ex1Invoice ex1Config "INT-1" "INV-INT-1"
    [] 20148 [] (fun _ => false)).1.2 hδ).1⟩

/-- A ledger all of whose deltas are exact cent multiples (true of any
ledger produced by the engine, whose deltas all pass `roundMoney`). -/
def CentLedger (ledger : List InterestLedgerEntry) : Prop :=
  ∀ e ∈ ledger, CentMul e.delta

/-- The charged amount is the sum of the deltas of the invoice's entries. -/
theorem getCurrentChargedAmount_eq_sum (ledger : List InterestLedgerEntry)
    (sourceInvoiceId : String) :
    getCurrentChargedAmount ledger sourceInvoiceId =
      ((ledger.filter (fun e => e.sourceInvoiceId == sourceInvoiceId)).map
        (fun e => e.delta)).sum := by
  rw [getCurrentChargedAmount, getLedgerEntriesBySourceInvoice]
  exact (foldl_add_map (fun e : InterestLedgerEntry => e.delta) _ 0).trans (zero_add _)

/-- A sum of cent multiples is a cent multiple. -/
theorem centMul_sum : ∀ l : List ℚ, (∀ x ∈ l, CentMul x) → CentMul l.sum := by
  intro l
  induction l with
  | nil => intro _; simpa using CentMul.zero
  | cons x xs ih =>
    intro h
    rw [List.sum_cons]
    exact (h x (List.mem_cons_self x xs)).add
      (ih fun y hy => h y (List.mem_cons_of_mem x hy))

/-- The charged amount of a cent-multiple ledger is a cent multiple. -/
theorem centMul_prevCharged {ledger : List InterestLedgerEntry}
    (hled : CentLedger ledger) (invoice : XeroInvoice) :
    CentMul (prevCharged ledger invoice) := by
  rw [prevCharged, getCurrentChargedAmount_eq_sum]
  apply centMul_sum
  intro x hx
  obtain ⟨e, he, rfl⟩ := List.mem_map.mp hx
  exact hled e (List.mem_of_mem_filter he)

/-- The computed should-owe is always a cent multiple (either zero or a
`roundMoney` output). -/
theorem centMul_shouldOwe (invoice : XeroInvoice) (config : InterestConfig)
    (t : ℤ) : CentMul (shouldOweOf invoice config t) := by
  rw [shouldOweOf, calculateShouldOwe]
  dsimp only
  by_cases h : daysOverdue invoice.dueDate t < config.minDaysOverdue
  · rw [if_pos h]
    exact CentMul.zero
  · rw [if_neg h]
    dsimp only
    rw [calculateTimelineInterest]
    by_cases h2 : t ≤ invoice.dueDate
    · rw [if_pos h2]
      exact CentMul.zero
    · rw [if_neg h2]
      exact roundMoney_centMul _

/-- C1: `getCurrentChargedAmount` is exactly the sum of the invoice's ledger
deltas; `reconcileInvoice` only ever appends (one entry or none), each
written entry's delta is `round(shouldOwe − previouslyCharged)`, and
immediately after a call that writes an entry the deltas sum to the
should-owe computed in that call; cent-multiple deltas are preserved, so the
invariant holds across any sequence of reconciliation calls. -/
theorem claim_C1_ledger_invariant (invoice : XeroInvoice)
    (config : InterestConfig) (iid inum : String)
    (ledger : List InterestLedgerEntry) (t : ℤ) (hled : CentLedger ledger) :
    (∀ id : String,
      getCurrentChargedAmount (reconcileInvoice invoice config iid inum ledger t).2 id =
        (((reconcileInvoice invoice config iid inum ledger t).2.filter
          (fun e => e.sourceInvoiceId == id)).map (fun e => e.delta)).sum) ∧
    ((reconcileInvoice invoice config iid inum ledger t).2 = ledger ∨
      (∃ e, (reconcileInvoice invoice config iid inum ledger t).2 = ledger ++ [e] ∧
        e.delta = deltaOf invoice config ledger t ∧
        e.delta = shouldOweOf invoice config t - prevCharged ledger invoice ∧
        getCurrentChargedAmount
          (reconcileInvoice invoice config iid inum ledger t).2 invoice.invoiceID =
          shouldOweOf invoice config t)) ∧
    CentLedger (reconcileInvoice invoice config iid inum ledger t).2 := by
  have hδeq : deltaOf invoice config ledger t =
      shouldOweOf invoice config t - prevCharged ledger invoice :=
    roundMoney_eq_self
      ((centMul_shouldOwe invoice config t).sub (centMul_prevCharged hled invoice))
  refine ⟨fun id => getCurrentChargedAmount_eq_sum _ id, ?_, ?_⟩
  · by_cases hδ : |deltaOf invoice config ledger t| < 1/100
    · left
      rw [reconcileInvoice,
        reconcileInvoiceWith_below invoice config iid inum ledger t _ hδ]
    · right
      rw [reconcileInvoice, reconcileInvoiceWith_above invoice config iid inum
        ledger t _ (le_of_not_lt hδ)]
      refine ⟨_, rfl, rfl, ?_, ?_⟩
      · exact hδeq
      · rw [getCurrentChargedAmount_eq_sum]
        rw [List.filter_append, List.map_append, List.sum_append]
        have hself : (([reconcileEntry invoice config iid inum (monthKeyOfDay t)
            (shouldOweOf invoice config t) (prevCharged ledger invoice)
            (deltaOf invoice config ledger t)
            (calculateShouldOwe invoice config t).daysOverdue
            (if isVoidedStatus invoice.status = true then RReason.SourceVoided
             else determineReason
               (getLatestLedgerEntryForInvoice ledger invoice.invoiceID) invoice)
            (classifyAction (deltaOf invoice config ledger t)
              (prevCharged ledger invoice)
              (shouldOweOf invoice config t))] :
            List InterestLedgerEntry).filter
            (fun e => e.sourceInvoiceId == invoice.invoiceID)).map
            (fun e => e.delta) = [deltaOf invoice config ledger t] := by
          simp [reconcileEntry]
        rw [hself]
        rw [← getCurrentChargedAmount_eq_sum]
        have : getCurrentChargedAmount ledger invoice.invoiceID =
            prevCharged ledger invoice := rfl
        rw [this, List.sum_singleton, hδeq]
        ring
  · by_cases hδ : |deltaOf invoice config ledger t| < 1/100
    · rw [reconcileInvoice,
        reconcileInvoiceWith_below invoice config iid inum ledger t _ hδ]
      exact hled
    · rw [reconcileInvoice, reconcileInvoiceWith_above invoice config iid inum
        ledger t _ (le_of_not_lt hδ)]
      intro e he
      rcases List.mem_append.mp he with h | h
      · exact hled e h
      · rw [List.mem_singleton.mp h]
        rw [hδeq]
        exact (centMul_shouldOwe invoice config t).sub
          (centMul_prevCharged hled invoice)

/-- Witness for C1: the voided-scenario ledger is cent-multiple, and the
C4-scenario reconcile call at day 73 appends one entry bringing the sum to
the computed should-owe. -/
theorem claim_C1_witness :
    CentLedger c4Ledger ∧
    (∀ id : String,
      getCurrentChargedAmount (reconcileInvoice c4Invoice c4Config "INT-V"
        "INV-INT-V" c4Ledger 73).2 id =
        (((reconcileInvoice c4Invoice c4Config "INT-V" "INV-INT-V"
          c4Ledger 73).2.filter (fun e => e.sourceInvoiceId == id)).map
          (fun e => e.delta)).sum) := by
  have hled : CentLedger c4Ledger := by
    intro e he
    simp only [c4Ledger, List.mem_singleton] at he
    rw [he]
    exact ⟨50000, by norm_num⟩
  exact ⟨hled, (claim_C1_ledger_invariant c4Invoice c4Config "INT-V" "INV-INT-V"
    c4Ledger 73 hled).1⟩

/-- Every calculation collected by the batch fold meets the minimum,
given the accumulator already does. -/
theorem batchStep_foldl_min (config : InterestConfig) (t : ℤ) :
    ∀ (invs : List XeroInvoice) (acc : List InterestCalculation × List SkippedInvoice),
      (∀ c ∈ acc.1, meetsMinimum c.netInterest config.minChargeAmount = true) →
      ∀ c ∈ (invs.foldl (batchStep config t) acc).1,
        meetsMinimum c.netInterest config.minChargeAmount = true := by
  intro invs
  induction invs with
  | nil => intro acc h; exact h
  | cons invoice rest ih =>
    intro acc h
    apply ih
    rw [batchStep]
    by_cases h1 : isVoidedStatus invoice.status = true
    · rw [if_pos h1]; exact h
    · rw [if_neg h1]
      by_cases h2 : invoice.status = XeroStatus.PAID
      · rw [if_pos h2]; exact h
      · rw [if_neg h2]
        by_cases h3 : invoice.amountDue ≤ 0
        · rw [if_pos h3]; exact h
        · rw [if_neg h3]
          cases hcalc : calculateInterest invoice config t with
          | none => exact h
          | some c =>
            dsimp only
            cases hmeets : meetsMinimum c.netInterest config.minChargeAmount with
            | false =>
              rw [if_pos (by rfl)]
              exact h
            | true =>
              rw [if_neg (by simp)]
              intro c' hc'
              rcases List.mem_append.mp hc' with hmem | hmem
              · exact h c' hmem
              · rw [List.mem_singleton.mp hmem]
                exact hmeets

/-- C8 (amended): the minimum-charge suppression lives only in the legacy
batch calculator: every calculation `calculateBatchInterest` emits meets the
configured minimum (`meetsMinimum`), below-minimum invoices land in the
skipped list; `reconcileInvoice` does not consult `minChargeAmount`. -/
theorem claim_C8_batch_minimum (invoices : List XeroInvoice)
    (config : InterestConfig) (t : ℤ) :
    ∀ c ∈ (calculateBatchInterest invoices config t).calculations,
      meetsMinimum c.netInterest config.minChargeAmount = true := by
  intro c hc
  rw [calculateBatchInterest] at hc
  exact batchStep_foldl_min config t invoices ([], []) (by simp) c hc

/-- The below-minimum invoice of the C8 counterexample: $250 due 1970-01-01,
10 %/yr, no grace; 73 days overdue its interest is exactly $5.00. -/
def c8Invoice : XeroInvoice :=
  { invoiceID := "SRC-M", invoiceNumber := "INV-M", status := XeroStatus.AUTHORISED
    dueDate := 0, total := 250, amountDue := 250, amountPaid := 0
    payments := [], creditNotes := [] }

/-- Config with a $10 minimum chargeable amount. -/
def c8Config : InterestConfig :=
  { xeroContactId := "C-M", contactName := "Minimum", annualRate := 10
    minDaysOverdue := 0, minChargeAmount := 10 }

/-- C8 counterexample: with a $10 minimum and a computed charge of $5.00,
`calculateBatchInterest` suppresses the charge (skipped, below minimum), but
`reconcileInvoice` still writes a ledger entry of delta $5.00 — the
reconciliation path does not consult `minChargeAmount`. -/
theorem claim_C8_counterexample :
    shouldOweOf c8Invoice c8Config 73 = 5 ∧
    roundMoney (shouldOweOf c8Invoice c8Config 73) < c8Config.minChargeAmount ∧
    meetsMinimum (shouldOweOf c8Invoice c8Config 73) c8Config.minChargeAmount = false ∧
    (calculateBatchInterest [c8Invoice] c8Config 73).calculations = [] ∧
    (calculateBatchInterest [c8Invoice] c8Config 73).skipped =
      [⟨"INV-M", "Below minimum"⟩] ∧
    (reconcileInvoice c8Invoice c8Config "INT-M" "INV-INT-M" [] 73).2.length = 1 ∧
    ((reconcileInvoice c8Invoice c8Config "INT-M" "INV-INT-M" [] 73).2.map
      (fun e => e.delta)) = [5] := by
  have hso : shouldOweOf c8Invoice c8Config 73 = 5 := by
    norm_num [shouldOweOf, calculateShouldOwe, calculateTimelineInterest,
      timelineEvents, sortByDate, createPeriod, daysOverdue, daysBetween,
      c8Invoice, c8Config, roundMoney, round_eq]
  refine ⟨hso, ?_, ?_, ?_, ?_, ?_, ?_⟩
  · rw [hso]
    norm_num [c8Config, roundMoney, round_eq]
  · rw [hso]
    norm_num [meetsMinimum, c8Config, roundMoney, round_eq]
  · norm_num [calculateBatchInterest, batchStep, calculateInterest, meetsMinimum,
      isVoidedStatus, daysOverdue, daysBetween, c8Invoice, c8Config,
      roundMoney, round_eq]
    rw [if_neg (by simp), if_neg (by simp)]
  · norm_num [calculateBatchInterest, batchStep, calculateInterest, meetsMinimum,
      isVoidedStatus, daysOverdue, daysBetween, c8Invoice, c8Config,
      roundMoney, round_eq]
    rw [if_neg (by simp), if_neg (by simp)]
  · norm_num [reconcileInvoice, reconcileInvoiceWith, calculateShouldOwe,
      calculateTimelineInterest, timelineEvents, sortByDate, createPeriod,
      getCurrentChargedAmount, getLedgerEntriesBySourceInvoice,
      getLatestLedgerEntryForInvoice, determineReason, isVoidedStatus,
      reconcileEntry, createLedgerEntry, daysOverdue, daysBetween,
      c8Invoice, c8Config, roundMoney, round_eq]
  · norm_num [reconcileInvoice, reconcileInvoiceWith, calculateShouldOwe,
      calculateTimelineInterest, timelineEvents, sortByDate, createPeriod,
      getCurrentChargedAmount, getLedgerEntriesBySourceInvoice,
      getLatestLedgerEntryForInvoice, determineReason, isVoidedStatus,
      reconcileEntry, createLedgerEntry, daysOverdue, daysBetween,
      c8Invoice, c8Config, roundMoney, round_eq]

/-- An above-minimum invoice for the C8 witness: $1,000 at the same terms
gives exactly $20.00 of interest. -/
def c8bInvoice : XeroInvoice :=
  { c8Invoice with
      invoiceID := "SRC-B", invoiceNumber := "INV-B", total := 1000,
      amountDue := 1000 }

/-- Witness for C8 (amended): the $20 calculation emitted for the
above-minimum invoice meets the $10 minimum. -/
theorem claim_C8_witness :
    ((calculateBatchInterest [c8bInvoice] c8Config 73).calculations.map
      (fun c => meetsMinimum c.netInterest c8Config.minChargeAmount)) = [true] := by
  have hcalc : (calculateBatchInterest [c8bInvoice] c8Config 73).calculations.length = 1 := by
    norm_num [calculateBatchInterest, batchStep, calculateInterest, meetsMinimum,
      isVoidedStatus, daysOverdue, daysBetween, c8bInvoice, c8Invoice, c8Config,
      roundMoney, round_eq]
    rw [if_neg (by simp), if_neg (by simp)]
    rfl
  have hall := claim_C8_batch_minimum [c8bInvoice] c8Config 73
  cases hl : (calculateBatchInterest [c8bInvoice] c8Config 73).calculations with
  | nil => rw [hl] at hcalc; simp at hcalc
  | cons c rest =>
    rw [hl] at hcalc
    have hrest : rest = [] := by
      simpa using hcalc
    subst hrest
    have hc := hall c (by rw [hl]; exact List.mem_singleton_self c)
    simp [hc]

/-- The batch driven through `reconcileInvoice` always yields one result per
invoice, whatever the failures. -/
theorem reconcileBatchE_foldl_length (dbFail : String → Option String)
    (config : InterestConfig) (iid inum : String) (t : ℤ) :
    ∀ (invs : List XeroInvoice) (acc : List ReconciliationResult × List InterestLedgerEntry),
      (invs.foldl (fun acc invoice =>
        let out := reconcileInvoiceE dbFail invoice config iid inum acc.2 t
        (acc.1 ++ [out.1], out.2)) acc).1.length = acc.1.length + invs.length := by
  intro invs
  induction invs with
  | nil => intro acc; simp
  | cons invoice rest ih =>
    intro acc
    rw [List.foldl_cons, ih]
    simp
    omega

/-- C6 (amended): an exception from the external store read is caught by
`reconcileInvoice` and recorded in that invoice's `error` field with the
ledger untouched, and a batch driven through `reconcileInvoice` processes
every invoice; the per-invoice loop of `runReconciliation`, however, has no
handler, so the same failure aborts the remaining invoices of that batch. -/
theorem claim_C6_error_isolation (dbFail : String → Option String)
    (invoice : XeroInvoice) (config : InterestConfig) (iid inum : String)
    (ledger : List InterestLedgerEntry) (t : ℤ) (msg : String)
    (invoices : List XeroInvoice) (vo : String → Bool)
    (rest : List XeroInvoice) :
    (dbFail invoice.invoiceID = some msg →
      (reconcileInvoiceE dbFail invoice config iid inum ledger t).1.error = some msg ∧
      (reconcileInvoiceE dbFail invoice config iid inum ledger t).2 = ledger) ∧
    (dbFail invoice.invoiceID = none →
      reconcileInvoiceE dbFail invoice config iid inum ledger t =
        reconcileInvoice invoice config iid inum ledger t) ∧
    (reconcileBatchE dbFail invoices config iid inum ledger t).1.length =
      invoices.length ∧
    (dbFail invoice.invoiceID = some msg →
      runReconciliationResultsE dbFail config vo ledger t (invoice :: rest) =
        Except.error msg) := by
  refine ⟨?_, ?_, ?_, ?_⟩
  · intro hf
    rw [reconcileInvoiceE, getCurrentChargedAmountE, hf]
    exact ⟨rfl, rfl⟩
  · intro hf
    rw [reconcileInvoiceE, getCurrentChargedAmountE, hf]
  · rw [reconcileBatchE]
    rw [reconcileBatchE_foldl_length dbFail config iid inum t invoices ([], ledger)]
    simp
  · intro hf
    rw [runReconciliationResultsE, getCurrentChargedAmountE, hf]

/-- First invoice of the C6 counterexample (its store read fails). -/
def c6Invoice1 : XeroInvoice :=
  { invoiceID := "SRC-A", invoiceNumber := "INV-A", status := XeroStatus.AUTHORISED
    dueDate := 0, total := 100, amountDue := 100, amountPaid := 0
    payments := [], creditNotes := [] }

/-- Second invoice of the C6 counterexample (positioned after the failing
one). -/
def c6Invoice2 : XeroInvoice :=
  { invoiceID := "SRC-B2", invoiceNumber := "INV-B2", status := XeroStatus.AUTHORISED
    dueDate := 0, total := 100, amountDue := 100, amountPaid := 0
    payments := [], creditNotes := [] }

/-- The failure oracle of the C6 counterexample: the store read for the
first invoice throws. -/
def c6Fail (sourceInvoiceId : String) : Option String :=
  if sourceInvoiceId == "SRC-A" then some "db down" else none

/-- C6 counterexample: with the first invoice's store read failing, the
batch driven through `reconcileInvoice` still produces a result for the
second invoice (first marked with the error), but the per-invoice loop of
`runReconciliation` aborts with the error and the second invoice's result is
never produced. -/
theorem claim_C6_counterexample :
    runReconciliationResultsE c6Fail c4Config (fun _ => false) [] 0
        [c6Invoice1, c6Invoice2] = Except.error "db down" ∧
    (reconcileBatchE c6Fail [c6Invoice1, c6Invoice2] c4Config "INT-E" "INV-INT-E"
      [] 0).1.length = 2 ∧
    ((reconcileBatchE c6Fail [c6Invoice1, c6Invoice2] c4Config "INT-E" "INV-INT-E"
      [] 0).1.map (fun r => r.error)) = [some "db down", none] := by
  refine ⟨?_, ?_, ?_⟩
  · rw [runReconciliationResultsE]
    rw [show getCurrentChargedAmountE c6Fail [] c6Invoice1.invoiceID =
      Except.error "db down" from rfl]
  · exact (claim_C6_error_isolation c6Fail c6Invoice1 c4Config "INT-E" "INV-INT-E"
      [] 0 "db down" [c6Invoice1, c6Invoice2] (fun _ => false) []).2.2.1
  · norm_num [reconcileBatchE, reconcileInvoiceE, getCurrentChargedAmountE, c6Fail,
      reconcileInvoice, reconcileInvoiceWith, calculateShouldOwe,
      calculateTimelineInterest, timelineEvents, sortByDate, createPeriod,
      getCurrentChargedAmount, getLedgerEntriesBySourceInvoice,
      getLatestLedgerEntryForInvoice, determineReason, isVoidedStatus,
      daysOverdue, daysBetween, c6Invoice1, c6Invoice2, c4Config,
      roundMoney, round_eq]
    rw [if_neg (by decide : ¬("SRC-B2" = "SRC-A"))]

/-- Witness for C6 (amended) at the counterexample scenario's inputs. -/
theorem claim_C6_witness :
    c6Fail c6Invoice1.invoiceID = some "db down" ∧
    (reconcileInvoiceE c6Fail c6Invoice1 c4Config "INT-E" "INV-INT-E" [] 0).1.error =
      some "db down" ∧
    (reconcileBatchE c6Fail [c6Invoice1, c6Invoice2] c4Config "INT-E" "INV-INT-E"
      [] 0).1.length = 2 :=
  ⟨rfl,
   ((claim_C6_error_isolation c6Fail c6Invoice1 c4Config "INT-E" "INV-INT-E"
     [] 0 "db down" [c6Invoice1, c6Invoice2] (fun _ => false) []).1 rfl).1,
   (claim_C6_error_isolation c6Fail c6Invoice1 c4Config "INT-E" "INV-INT-E"
     [] 0 "db down" [c6Invoice1, c6Invoice2] (fun _ => false) []).2.2.1⟩

/-- C10: the monthly billable day count runs from
`max(dueDate + grace, first day of month)` through the last day of the month
inclusive, with no reference to any as-of date (the functions take none); a
month fully past grace is billed for its entire length, so
`calculateMonthlyInterest` charges the month containing the as-of date for
the full calendar month including days that have not yet elapsed: for the
scenario due 2025-01-01, grace 30, as of 2025-03-15 (day 20162), March 2025
is billed 31 days though only 15 have elapsed. -/
theorem claim_C10_monthly_day_count (dueDate g mi : ℤ) (invoice : XeroInvoice)
    (config : InterestConfig) (hmo : monthStart mi ≤ monthEnd mi) :
    (getDaysOverdueInMonth dueDate g mi =
      if monthEnd mi < dueDate + g then 0
      else max 0 (monthEnd mi - max (monthStart mi) (dueDate + g) + 1)) ∧
    (dueDate + g ≤ monthStart mi →
      getDaysOverdueInMonth dueDate g mi = monthEnd mi - monthStart mi + 1) ∧
    (calculateMonthlyInterest invoice config mi =
      if getDaysOverdueInMonth invoice.dueDate config.minDaysOverdue mi ≤ 0 then (0, 0)
      else if invoice.amountDue ≤ 0 then
        (0, getDaysOverdueInMonth invoice.dueDate config.minDaysOverdue mi)
      else
        (roundMoney (invoice.amountDue * (config.annualRate / 100 / 365) *
          ((getDaysOverdueInMonth invoice.dueDate config.minDaysOverdue mi : ℤ) : ℚ)),
         getDaysOverdueInMonth invoice.dueDate config.minDaysOverdue mi)) ∧
    monthOfDay 20162 = monthIndex 2025 3 ∧
    monthStart (monthIndex 2025 3) = 20148 ∧
    monthEnd (monthIndex 2025 3) = 20178 ∧
    getDaysOverdueInMonth 20089 30 (monthIndex 2025 3) = 31 ∧
    (20162 : ℤ) - monthStart (monthIndex 2025 3) + 1 = 15 ∧ (15 : ℤ) < 31 := by
  refine ⟨rfl, ?_, rfl, by decide, by decide, by decide, by decide, by decide, by decide⟩
  intro hstart
  rw [getDaysOverdueInMonth]
  dsimp only
  rw [if_neg (by omega)]
  rw [max_eq_left hstart]
  omega

/-- Witness for C10 at March 2025 (day count 31). -/
theorem claim_C10_witness :
    monthStart (monthIndex 2025 3) ≤ monthEnd (monthIndex 2025 3) ∧
    (20089 : ℤ) + 30 ≤ monthStart (monthIndex 2025 3) ∧
    getDaysOverdueInMonth 20089 30 (monthIndex 2025 3) =
      monthEnd (monthIndex 2025 3) - monthStart (monthIndex 2025 3) + 1 :=
  ⟨by decide, by decide,
   (claim_C10_monthly_day_count 20089 30 (monthIndex 2025 3) ex1Invoice ex1Config
     (by decide)).2.1 (by decide)⟩

/-- The grace split of any period is a nonnegative day count. -/
theorem createPeriod_dag_nonneg (s e : ℤ) (b : ℚ) (g : ℤ) (dr : ℚ)
    (hse : s ≤ e) : 0 ≤ (createPeriod s e b g dr).daysAfterGrace := by
  rw [createPeriod_eq]
  dsimp only
  split_ifs <;> omega

/-- The grace split grows with the period end (for a well-formed period). -/
theorem createPeriod_dag_mono (s e1 e2 : ℤ) (b1 b2 : ℚ) (g : ℤ) (dr1 dr2 : ℚ)
    (h12 : e1 ≤ e2) (hse : s ≤ e1) :
    (createPeriod s e1 b1 g dr1).daysAfterGrace ≤
      (createPeriod s e2 b2 g dr2).daysAfterGrace := by
  rw [createPeriod_eq, createPeriod_eq]
  dsimp only
  split_ifs <;> omega

/-- A period's interest is nonnegative for a nonnegative balance and rate. -/
theorem createPeriod_interest_nonneg (s e : ℤ) (b : ℚ) (g : ℤ) (dr : ℚ)
    (hse : s ≤ e) (hb : 0 ≤ b) (hdr : 0 ≤ dr) :
    0 ≤ (createPeriod s e b g dr).interestForPeriod := by
  apply roundMoney_nonneg
  have hdag : (0 : ℚ) ≤ ((createPeriod s e b g dr).daysAfterGrace : ℚ) := by
    exact_mod_cast createPeriod_dag_nonneg s e b g dr hse
  have : (createPeriod s e b g dr).interestForPeriod =
      roundMoney (b * dr * ((createPeriod s e b g dr).daysAfterGrace : ℚ)) := rfl
  positivity

/-- A period's interest grows with the period end, for a nonnegative balance
and rate. -/
theorem createPeriod_interest_mono (s e1 e2 : ℤ) (b : ℚ) (g : ℤ) (dr : ℚ)
    (h12 : e1 ≤ e2) (hse : s ≤ e1) (hb : 0 ≤ b) (hdr : 0 ≤ dr) :
    (createPeriod s e1 b g dr).interestForPeriod ≤
      (createPeriod s e2 b g dr).interestForPeriod := by
  apply roundMoney_monotone
  have hdag : ((createPeriod s e1 b g dr).daysAfterGrace : ℚ) ≤
      ((createPeriod s e2 b g dr).daysAfterGrace : ℚ) := by
    exact_mod_cast createPeriod_dag_mono s e1 e2 b b g dr dr h12 hse
  have hbd : 0 ≤ b * dr := mul_nonneg hb hdr
  exact mul_le_mul_of_nonneg_left hdag hbd

/-- The event fold of `calculateTimelineInterest` (independent of the
as-of date). -/
def timelineFold (invoice : XeroInvoice) (config : InterestConfig) :
    List BalancePeriod × ℚ × ℤ :=
  (timelineEvents invoice).foldl
    (timelineStep invoice.dueDate (invoice.dueDate + config.minDaysOverdue)
      (config.annualRate / 100 / 365)) ([], invoice.total, invoice.dueDate)

/-- Total interest past the due date: the event periods' rounded interests
plus the final period's, when the cursor is before the as-of date on a
positive balance. -/
theorem timeline_totalInterest_eq (invoice : XeroInvoice)
    (config : InterestConfig) (t : ℤ) (ht : invoice.dueDate < t) :
    (calculateTimelineInterest invoice config t).totalInterest =
      roundMoney ((((timelineFold invoice config).1.map
          (fun p => p.interestForPeriod)).sum) +
        (if (timelineFold invoice config).2.2 < t ∧
            0 < (timelineFold invoice config).2.1 then
          (createPeriod (timelineFold invoice config).2.2 t
            (timelineFold invoice config).2.1
            (invoice.dueDate + config.minDaysOverdue)
            (config.annualRate / 100 / 365)).interestForPeriod
        else 0)) := by
  have hfold : (timelineEvents invoice).foldl
      (timelineStep invoice.dueDate (invoice.dueDate + config.minDaysOverdue)
        (config.annualRate / 100 / 365)) ([], invoice.total, invoice.dueDate) =
      timelineFold invoice config := rfl
  rw [calculateTimelineInterest]
  rw [if_neg (not_le.mpr ht)]
  dsimp only
  rw [hfold]
  by_cases hc : (timelineFold invoice config).2.2 < t ∧
      0 < (timelineFold invoice config).2.1
  · rw [if_pos hc, if_pos hc]
    have hdays : (createPeriod (timelineFold invoice config).2.2 t
        (timelineFold invoice config).2.1
        (invoice.dueDate + config.minDaysOverdue)
        (config.annualRate / 100 / 365)).daysInPeriod =
        t - (timelineFold invoice config).2.2 := rfl
    rw [hdays, if_pos (show (0 : ℤ) < t - (timelineFold invoice config).2.2 by omega)]
    congr 1
    rw [foldl_add_map (fun p : BalancePeriod => p.interestForPeriod), zero_add,
      List.map_append, List.sum_append]
    simp
  · rw [if_neg hc, if_neg hc]
    rw [foldl_add_map (fun p : BalancePeriod => p.interestForPeriod), zero_add,
      add_zero]

/-- The event fold accumulates a nonnegative interest sum, for a nonnegative
rate. -/
theorem timelineFold_sum_nonneg (d g : ℤ) (dr : ℚ) (hdr : 0 ≤ dr) :
    ∀ (evs : List TEvent) (P : List BalancePeriod) (b : ℚ) (s : ℤ),
      0 ≤ (P.map (fun p => p.interestForPeriod)).sum →
      0 ≤ (((evs.foldl (timelineStep d g dr) (P, b, s)).1).map
        (fun p => p.interestForPeriod)).sum := by
  intro evs
  induction evs with
  | nil => intro P b s h; exact h
  | cons ev rest ih =>
    intro P b s h
    rw [List.foldl_cons, timelineStep]
    dsimp only
    by_cases hpre : ev.date ≤ d
    · rw [if_pos hpre]
      exact ih P (b - ev.amount) s h
    · rw [if_neg hpre]
      by_cases hg : s < ev.date ∧ 0 < b
      · rw [if_pos hg]
        have hdays : (createPeriod s ev.date b g dr).daysInPeriod = ev.date - s := rfl
        rw [hdays, if_pos (show (0 : ℤ) < ev.date - s by omega)]
        apply ih
        rw [List.map_append, List.sum_append]
        have hint : 0 ≤ (createPeriod s ev.date b g dr).interestForPeriod :=
          createPeriod_interest_nonneg s ev.date b g dr (le_of_lt hg.1)
            (le_of_lt hg.2) hdr
        simp only [List.map_cons, List.map_nil, List.sum_cons, List.sum_nil]
        linarith
      · rw [if_neg hg]
        exact ih P (max 0 (b - ev.amount)) ev.date h

/-- Total interest is nonnegative for a nonnegative rate. -/
theorem timeline_total_nonneg (invoice : XeroInvoice) (config : InterestConfig)
    (t : ℤ) (hr : 0 ≤ config.annualRate) :
    0 ≤ (calculateTimelineInterest invoice config t).totalInterest := by
  have hdr : 0 ≤ config.annualRate / 100 / 365 := by positivity
  by_cases ht : t ≤ invoice.dueDate
  · rw [calculateTimelineInterest, if_pos ht]
  · rw [timeline_totalInterest_eq invoice config t (not_le.mp ht)]
    apply roundMoney_nonneg
    have hbase : 0 ≤ ((timelineFold invoice config).1.map
        (fun p => p.interestForPeriod)).sum := by
      rw [timelineFold]
      exact timelineFold_sum_nonneg invoice.dueDate
        (invoice.dueDate + config.minDaysOverdue) (config.annualRate / 100 / 365)
        hdr (timelineEvents invoice) [] invoice.total invoice.dueDate (by simp)
    by_cases hc : (timelineFold invoice config).2.2 < t ∧
        0 < (timelineFold invoice config).2.1
    · rw [if_pos hc]
      have hfin := createPeriod_interest_nonneg (timelineFold invoice config).2.2 t
        (timelineFold invoice config).2.1
        (invoice.dueDate + config.minDaysOverdue) (config.annualRate / 100 / 365)
        (le_of_lt hc.1) (le_of_lt hc.2) hdr
      linarith
    · rw [if_neg hc]
      linarith

/-- C7: for a fixed invoice (fixed events) and a nonnegative rate, the
timeline's total interest is monotone in the as-of date. -/
theorem claim_C7_monotone (invoice : XeroInvoice) (config : InterestConfig)
    (t1 t2 : ℤ) (hr : 0 ≤ config.annualRate) (h12 : t1 ≤ t2) :
    (calculateTimelineInterest invoice config t1).totalInterest ≤
      (calculateTimelineInterest invoice config t2).totalInterest := by
  have hdr : 0 ≤ config.annualRate / 100 / 365 := by positivity
  by_cases h1 : t1 ≤ invoice.dueDate
  · rw [calculateTimelineInterest, if_pos h1]
    exact timeline_total_nonneg invoice config t2 hr
  · have h2 : invoice.dueDate < t2 := lt_of_lt_of_le (not_le.mp h1) h12
    rw [timeline_totalInterest_eq invoice config t1 (not_le.mp h1),
      timeline_totalInterest_eq invoice config t2 h2]
    apply roundMoney_monotone
    apply add_le_add_left
    by_cases hb : 0 < (timelineFold invoice config).2.1
    · by_cases hs1 : (timelineFold invoice config).2.2 < t1
      · rw [if_pos ⟨hs1, hb⟩, if_pos ⟨lt_of_lt_of_le hs1 h12, hb⟩]
        exact createPeriod_interest_mono (timelineFold invoice config).2.2 t1 t2
          (timelineFold invoice config).2.1
          (invoice.dueDate + config.minDaysOverdue)
          (config.annualRate / 100 / 365) h12 (le_of_lt hs1) (le_of_lt hb) hdr
      · rw [if_neg (fun h => hs1 h.1)]
        by_cases hs2 : (timelineFold invoice config).2.2 < t2
        · rw [if_pos ⟨hs2, hb⟩]
          exact createPeriod_interest_nonneg (timelineFold invoice config).2.2 t2
            (timelineFold invoice config).2.1
            (invoice.dueDate + config.minDaysOverdue)
            (config.annualRate / 100 / 365) (le_of_lt hs2) (le_of_lt hb) hdr
        · rw [if_neg (fun h => hs2 h.1)]
    · rw [if_neg (fun h => hb h.2), if_neg (fun h => hb h.2)]

/-- Witness for C7: Example 1's interest at 2025-02-01 does not exceed the
interest at 2025-03-01. -/
theorem claim_C7_witness :
    (0 : ℚ) ≤ ex1Config.annualRate ∧ (20120 : ℤ) ≤ 20148 ∧
    (calculateTimelineInterest ex1Invoice ex1Config 20120).totalInterest ≤
      (calculateTimelineInterest ex1Invoice ex1Config 20148).totalInterest :=
  ⟨by norm_num [ex1Config], by norm_num,
   claim_C7_monotone ex1Invoice ex1Config 20120 20148
     (by norm_num [ex1Config]) (by norm_num)⟩

/-! ### C9 scenario: one invoice overdue across three months, run twice -/

/-- The C9 invoice: $10,000 due 2025-01-01, no payments. -/
def c9Invoice : XeroInvoice :=
  { invoiceID := "SRC-9", invoiceNumber := "INV-9", status := XeroStatus.AUTHORISED
    dueDate := 20089, total := 10000, amountDue := 10000, amountPaid := 0
    payments := [], creditNotes := [] }

/-- The C9 config: 24 %/yr, 30-day grace. -/
def c9Config : InterestConfig :=
  { xeroContactId := "C-9", contactName := "Nine", annualRate := 24
    minDaysOverdue := 30, minChargeAmount := 0 }

/-- Empty external state. -/
def c9X0 : XeroState := { invoices := [], creditNotes := [], nextId := 0 }

/-- Expected month interests: grace ends 2025-01-31, so January bills 1 day
($6.58), February 28 days ($184.11), March 31 days ($203.84). -/
theorem c9_cmi1 : calculateMonthlyInterest c9Invoice c9Config 24300 = (329/50, 1) := by
  rw [calculateMonthlyInterest]
  have hd : getDaysOverdueInMonth c9Invoice.dueDate c9Config.minDaysOverdue 24300 = 1 := by
    decide
  rw [hd]
  norm_num [c9Invoice, c9Config, roundMoney, round_eq]

/-- February 2025 bills 28 days: $184.11. -/
theorem c9_cmi2 : calculateMonthlyInterest c9Invoice c9Config 24301 = (18411/100, 28) := by
  rw [calculateMonthlyInterest]
  have hd : getDaysOverdueInMonth c9Invoice.dueDate c9Config.minDaysOverdue 24301 = 28 := by
    decide
  rw [hd]
  norm_num [c9Invoice, c9Config, roundMoney, round_eq]

/-- March 2025 bills 31 days: $203.84. -/
theorem c9_cmi3 : calculateMonthlyInterest c9Invoice c9Config 24302 = (5096/25, 31) := by
  rw [calculateMonthlyInterest]
  have hd : getDaysOverdueInMonth c9Invoice.dueDate c9Config.minDaysOverdue 24302 = 31 := by
    decide
  rw [hd]
  norm_num [c9Invoice, c9Config, roundMoney, round_eq]

/-- Expected first-run month result (Created / Initial). -/
def c9R (cm : String) (sow : ℚ) : MonthlyReconciliationResult :=
  { sourceInvoiceId := "SRC-9", sourceInvoiceNumber := "INV-9", chargeMonth := cm
    shouldOwe := sow, previouslyCharged := 0, delta := sow
    action := RAction.Created, reason := RReason.Initial }

/-- Expected second-run month result (NoChange, delta 0). -/
def c9Rn (cm : String) (sow : ℚ) : MonthlyReconciliationResult :=
  { sourceInvoiceId := "SRC-9", sourceInvoiceNumber := "INV-9", chargeMonth := cm
    shouldOwe := sow, previouslyCharged := sow, delta := 0
    action := RAction.NoChange, reason := RReason.DailyAccrual }

/-- Expected ledger entry of the first run. -/
def c9E (iid inum cm : String) (sow : ℚ) (days : ℤ) : InterestLedgerEntry :=
  { sourceInvoiceId := "SRC-9", sourceInvoiceNumber := "INV-9"
    interestInvoiceId := iid, interestInvoiceNumber := inum, chargeMonth := cm
    action := RAction.Created, previousAmount := 0, newAmount := sow, delta := sow
    reason := RReason.Initial, sourceDueDate := 20089, sourceAmountDue := 10000
    daysOverdue := days, rate := 24/100, contactId := "C-9", contactName := "Nine" }

/-- Expected interest invoice in the external state after authorisation. -/
def c9XI (iid inum ref : String) : XInvoice :=
  { invoiceId := iid, invoiceNumber := inum, contactId := "C-9", reference := ref
    status := XeroStatus.AUTHORISED, amountPaid := 0, hasCreditNotes := false }

/-- Expected monthly result record. -/
def c9MR (cm inum iid : String) (tot : ℚ) (isNew : Bool) : MonthlyResult :=
  { chargeMonth := cm, invoiceNumber := inum, invoiceId := iid
    totalInterest := tot, lineItems := 1, isNew := isNew }

/-- The three-entry ledger after the first run. -/
def c9L : List InterestLedgerEntry :=
  [c9E "INT-0" "INV-INT-0" "2025-01" (329/50) 1,
   c9E "INT-1" "INV-INT-1" "2025-02" (18411/100) 28,
   c9E "INT-2" "INV-INT-2" "2025-03" (5096/25) 31]

/-- The external state after the first run: three authorised interest
invoices under distinct month-keyed references. -/
def c9X3 : XeroState :=
  { invoices :=
      [c9XI "INT-0" "INV-INT-0" "[FORIT-INT] Interest Charges - 2025-01",
       c9XI "INT-1" "INV-INT-1" "[FORIT-INT] Interest Charges - 2025-02",
       c9XI "INT-2" "INV-INT-2" "[FORIT-INT] Interest Charges - 2025-03"]
    creditNotes := [], nextId := 3 }

/-- First-run January per-invoice month result. -/
theorem c9_mi1 : monthlyInvoiceResult c9Config [] c9X0 24300 c9Invoice =
    some (c9R "2025-01" (329/50)) := by
  rw [monthlyInvoiceResult, c9_cmi1]
  have hk : monthKey 24300 = "2025-01" := by decide
  dsimp only
  rw [hk]
  have habs : |((329 : ℚ)/50)| = 329/50 := abs_of_nonneg (by norm_num)
  norm_num [getChargedAmountForMonth, getLedgerEntriesForMonth,
    getLatestLedgerEntryForMonth, c9Invoice, roundMoney, round_eq, habs, c9R]

/-- An authorised invoice is not voided. -/
theorem c9sv : XeroStatus.AUTHORISED ≠ XeroStatus.VOIDED := by decide

/-- An authorised invoice is not deleted. -/
theorem c9sd : XeroStatus.AUTHORISED ≠ XeroStatus.DELETED := by decide

/-- The three month keys of the scenario are pairwise distinct. -/
theorem c9ne12 : ("2025-01" : String) ≠ "2025-02" := by decide

/-- January and March keys differ. -/
theorem c9ne13 : ("2025-01" : String) ≠ "2025-03" := by decide

/-- February and March keys differ. -/
theorem c9ne23 : ("2025-02" : String) ≠ "2025-03" := by decide

/-- First-run February per-invoice month result (January's entry does not
match the February key; no prior entry, so the state is not consulted). -/
theorem c9_mi2 (st : XeroState) :
    monthlyInvoiceResult c9Config [c9E "INT-0" "INV-INT-0" "2025-01" (329/50) 1]
      st 24301 c9Invoice = some (c9R "2025-02" (18411/100)) := by
  rw [monthlyInvoiceResult, c9_cmi2]
  have hk : monthKey 24301 = "2025-02" := by decide
  dsimp only
  rw [hk]
  have habs : |((18411 : ℚ)/100)| = 18411/100 := abs_of_nonneg (by norm_num)
  norm_num [getChargedAmountForMonth, getLedgerEntriesForMonth,
    getLatestLedgerEntryForMonth, c9Invoice, c9E, roundMoney, round_eq, habs, c9R,
    c9ne12, c9ne13, c9ne23, c9ne12.symm, c9ne13.symm, c9ne23.symm, c9sv, c9sd]

/-- First-run March per-invoice month result. -/
theorem c9_mi3 (st : XeroState) :
    monthlyInvoiceResult c9Config
      [c9E "INT-0" "INV-INT-0" "2025-01" (329/50) 1,
       c9E "INT-1" "INV-INT-1" "2025-02" (18411/100) 28]
      st 24302 c9Invoice = some (c9R "2025-03" (5096/25)) := by
  rw [monthlyInvoiceResult, c9_cmi3]
  have hk : monthKey 24302 = "2025-03" := by decide
  dsimp only
  rw [hk]
  have habs : |((5096 : ℚ)/25)| = 5096/25 := abs_of_nonneg (by norm_num)
  norm_num [getChargedAmountForMonth, getLedgerEntriesForMonth,
    getLatestLedgerEntryForMonth, c9Invoice, c9E, roundMoney, round_eq, habs, c9R,
    c9ne12, c9ne13, c9ne23, c9ne12.symm, c9ne13.symm, c9ne23.symm, c9sv, c9sd]

/-- None of the three scenario interest invoices is voided. -/
theorem c9v0 : isInvoiceVoidedS c9X3 "INT-0" = false := by decide

/-- The February interest invoice is not voided. -/
theorem c9v1 : isInvoiceVoidedS c9X3 "INT-1" = false := by decide

/-- The March interest invoice is not voided. -/
theorem c9v2 : isInvoiceVoidedS c9X3 "INT-2" = false := by decide

/-- Second-run January per-invoice month result: already charged, interest
invoice not voided, delta 0, `NoChange`. -/
theorem c9_mi1r : monthlyInvoiceResult c9Config c9L c9X3 24300 c9Invoice =
    some (c9Rn "2025-01" (329/50)) := by
  rw [monthlyInvoiceResult, c9_cmi1]
  have hk : monthKey 24300 = "2025-01" := by decide
  dsimp only
  rw [hk]
  norm_num [getChargedAmountForMonth, getLedgerEntriesForMonth,
    getLatestLedgerEntryForMonth, c9v0, c9v1, c9v2,
    c9Invoice, c9L, c9E, roundMoney, round_eq, c9Rn,
    c9ne12, c9ne13, c9ne23, c9ne12.symm, c9ne13.symm, c9ne23.symm, c9sv, c9sd]

/-- Second-run February per-invoice month result. -/
theorem c9_mi2r : monthlyInvoiceResult c9Config c9L c9X3 24301 c9Invoice =
    some (c9Rn "2025-02" (18411/100)) := by
  rw [monthlyInvoiceResult, c9_cmi2]
  have hk : monthKey 24301 = "2025-02" := by decide
  dsimp only
  rw [hk]
  norm_num [getChargedAmountForMonth, getLedgerEntriesForMonth,
    getLatestLedgerEntryForMonth, c9v0, c9v1, c9v2,
    c9Invoice, c9L, c9E, roundMoney, round_eq, c9Rn,
    c9ne12, c9ne13, c9ne23, c9ne12.symm, c9ne13.symm, c9ne23.symm, c9sv, c9sd]

/-- Second-run March per-invoice month result. -/
theorem c9_mi3r : monthlyInvoiceResult c9Config c9L c9X3 24302 c9Invoice =
    some (c9Rn "2025-03" (5096/25)) := by
  rw [monthlyInvoiceResult, c9_cmi3]
  have hk : monthKey 24302 = "2025-03" := by decide
  dsimp only
  rw [hk]
  norm_num [getChargedAmountForMonth, getLedgerEntriesForMonth,
    getLatestLedgerEntryForMonth, c9v0, c9v1, c9v2,
    c9Invoice, c9L, c9E, roundMoney, round_eq, c9Rn,
    c9ne12, c9ne13, c9ne23, c9ne12.symm, c9ne13.symm, c9ne23.symm, c9sv, c9sd]

/-- A freshly created draft interest invoice. -/
def c9XD (iid inum ref : String) : XInvoice :=
  { invoiceId := iid, invoiceNumber := inum, contactId := "C-9", reference := ref
    status := XeroStatus.DRAFT, amountPaid := 0, hasCreditNotes := false }

/-- Initial monthly state of the first run. -/
def c9MS0 : MonthlyState :=
  { ledger := [], xero := c9X0, monthlyResults := [], detailedResults := []
    totalInterest := 0 }

/-- State after the first run's January. -/
def c9MS1 : MonthlyState :=
  { ledger := [c9E "INT-0" "INV-INT-0" "2025-01" (329/50) 1]
    xero := { invoices := [c9XI "INT-0" "INV-INT-0"
        "[FORIT-INT] Interest Charges - 2025-01"], creditNotes := [], nextId := 1 }
    monthlyResults := [c9MR "2025-01" "INV-INT-0" "INT-0" (329/50) true]
    detailedResults := [c9R "2025-01" (329/50)]
    totalInterest := 329/50 }

/-- First run, January: one `Created` ledger entry, one new draft invoice
authorised. -/
theorem c9_pm1 : processMonth c9Config [c9Invoice] 20162 false c9MS0 24300 = c9MS1 := by
  have hk : monthKey 24300 = "2025-01" := by decide
  have hs0 : "INT-" ++ toString (0 : ℕ) = "INT-0" := by decide
  have hs0' : "INV-INT-" ++ toString (0 : ℕ) = "INV-INT-0" := by decide
  have happ : "[FORIT-INT] Interest Charges - " ++ "2025-01" =
    "[FORIT-INT] Interest Charges - 2025-01" := by decide
  have hres : List.filterMap
      (monthlyInvoiceResult c9Config ([] : List InterestLedgerEntry) c9X0 24300)
      [c9Invoice] = [c9R "2025-01" (329/50)] := by
    simp only [List.filterMap_cons, List.filterMap_nil, c9_mi1]
  have hb1 : (XeroStatus.DRAFT == XeroStatus.PAID) = false := by decide
  have hb2 : (XeroStatus.DRAFT == XeroStatus.VOIDED) = false := by decide
  have hb3 : (XeroStatus.DRAFT == XeroStatus.DELETED) = false := by decide
  have hca : RAction.Created ≠ RAction.NoChange := by decide
  have hid9 : c9Invoice.invoiceID = "SRC-9" := rfl
  have hd9 : c9Invoice.dueDate = 20089 := rfl
  have ha9 : c9Invoice.amountDue = 10000 := rfl
  have hr9 : c9Config.annualRate = 24 := rfl
  have hc9 : c9Config.xeroContactId = "C-9" := rfl
  have hn9 : c9Config.contactName = "Nine" := rfl
  rw [processMonth]
  rw [show c9MS0.ledger = ([] : List InterestLedgerEntry) from rfl,
    show c9MS0.xero = c9X0 from rfl, hres]
  norm_num [hk, hs0, hs0', happ, hb1, hb2, hb3, hca, hid9, hd9, ha9, hr9, hc9,
    hn9, List.filterMap_cons, List.filterMap_nil, getOrCreateInterestInvoice,
    canModifyInvoiceS, setStatus, monthlyEntry,
    c9_cmi1, c9MS0, c9MS1, c9MR, c9R, c9E, c9XI, c9XD, c9X0, interestReference,
    roundMoney, round_eq]

/-- The three reference strings are pairwise distinct. -/
theorem c9rne12 : ("[FORIT-INT] Interest Charges - 2025-01" : String) ≠
    "[FORIT-INT] Interest Charges - 2025-02" := by decide

/-- January and March references differ. -/
theorem c9rne13 : ("[FORIT-INT] Interest Charges - 2025-01" : String) ≠
    "[FORIT-INT] Interest Charges - 2025-03" := by decide

/-- February and March references differ. -/
theorem c9rne23 : ("[FORIT-INT] Interest Charges - 2025-02" : String) ≠
    "[FORIT-INT] Interest Charges - 2025-03" := by decide

/-- State after the first run's February. -/
def c9X2 : XeroState :=
  { invoices := [c9XI "INT-0" "INV-INT-0" "[FORIT-INT] Interest Charges - 2025-01",
      c9XI "INT-1" "INV-INT-1" "[FORIT-INT] Interest Charges - 2025-02"],
    creditNotes := [], nextId := 2 }

def c9MS2 : MonthlyState :=
  { ledger := [c9E "INT-0" "INV-INT-0" "2025-01" (329/50) 1,
      c9E "INT-1" "INV-INT-1" "2025-02" (18411/100) 28],
    xero := c9X2,
    monthlyResults := [c9MR "2025-01" "INV-INT-0" "INT-0" (329/50) true,
      c9MR "2025-02" "INV-INT-1" "INT-1" (18411/100) true],
    detailedResults := [c9R "2025-01" (329/50), c9R "2025-02" (18411/100)],
    totalInterest := 19069/100 }

/-- State after the first run's March. -/
def c9MS3 : MonthlyState :=
  { ledger := c9L,
    xero := c9X3,
    monthlyResults := [c9MR "2025-01" "INV-INT-0" "INT-0" (329/50) true,
      c9MR "2025-02" "INV-INT-1" "INT-1" (18411/100) true,
      c9MR "2025-03" "INV-INT-2" "INT-2" (5096/25) true],
    detailedResults := [c9R "2025-01" (329/50), c9R "2025-02" (18411/100),
      c9R "2025-03" (5096/25)],
    totalInterest := 39453/100 }

/-- First run, February. -/
theorem c9_pm2 : processMonth c9Config [c9Invoice] 20162 false c9MS1 24301 = c9MS2 := by
  have hk : monthKey 24301 = "2025-02" := by decide
  have hs1 : "INT-" ++ toString (1 : ℕ) = "INT-1" := by decide
  have hs1' : "INV-INT-" ++ toString (1 : ℕ) = "INV-INT-1" := by decide
  have happ : "[FORIT-INT] Interest Charges - " ++ "2025-02" =
    "[FORIT-INT] Interest Charges - 2025-02" := by decide
  have hres : List.filterMap
      (monthlyInvoiceResult c9Config
        [c9E "INT-0" "INV-INT-0" "2025-01" (329/50) 1] c9MS1.xero 24301)
      [c9Invoice] = [c9R "2025-02" (18411/100)] := by
    simp only [List.filterMap_cons, List.filterMap_nil, c9_mi2]
  have hb1 : (XeroStatus.DRAFT == XeroStatus.PAID) = false := by decide
  have hb2 : (XeroStatus.DRAFT == XeroStatus.VOIDED) = false := by decide
  have hb3 : (XeroStatus.DRAFT == XeroStatus.DELETED) = false := by decide
  have hca : RAction.Created ≠ RAction.NoChange := by decide
  have hid9 : c9Invoice.invoiceID = "SRC-9" := rfl
  have hd9 : c9Invoice.dueDate = 20089 := rfl
  have ha9 : c9Invoice.amountDue = 10000 := rfl
  have hr9 : c9Config.annualRate = 24 := rfl
  have hc9 : c9Config.xeroContactId = "C-9" := rfl
  have hn9 : c9Config.contactName = "Nine" := rfl
  rw [processMonth]
  rw [show c9MS1.ledger = [c9E "INT-0" "INV-INT-0" "2025-01" (329/50) 1] from rfl,
    hres]
  norm_num +decide [hk, hs1, hs1', happ, hb1, hb2, hb3, hca, hid9, hd9, ha9, hr9, hc9,
    hn9, c9sv, c9sd, c9rne12, c9rne13, c9rne23, c9rne12.symm, c9rne13.symm,
    c9rne23.symm, List.filterMap_cons, List.filterMap_nil,
    getOrCreateInterestInvoice,
    canModifyInvoiceS, setStatus, monthlyEntry,
    c9_cmi2, c9MS1, c9MS2, c9MR, c9R, c9E, c9XI, c9XD, c9X0, interestReference,
    roundMoney, round_eq]

/-- First run, March. -/
theorem c9_pm3 : processMonth c9Config [c9Invoice] 20162 false c9MS2 24302 = c9MS3 := by
  have hk : monthKey 24302 = "2025-03" := by decide
  have hs2 : "INT-" ++ toString (2 : ℕ) = "INT-2" := by decide
  have hs2' : "INV-INT-" ++ toString (2 : ℕ) = "INV-INT-2" := by decide
  have happ : "[FORIT-INT] Interest Charges - " ++ "2025-03" =
    "[FORIT-INT] Interest Charges - 2025-03" := by decide
  have hres : List.filterMap
      (monthlyInvoiceResult c9Config
        [c9E "INT-0" "INV-INT-0" "2025-01" (329/50) 1,
         c9E "INT-1" "INV-INT-1" "2025-02" (18411/100) 28] c9MS2.xero 24302)
      [c9Invoice] = [c9R "2025-03" (5096/25)] := by
    simp only [List.filterMap_cons, List.filterMap_nil, c9_mi3]
  have hb1 : (XeroStatus.DRAFT == XeroStatus.PAID) = false := by decide
  have hb2 : (XeroStatus.DRAFT == XeroStatus.VOIDED) = false := by decide
  have hb3 : (XeroStatus.DRAFT == XeroStatus.DELETED) = false := by decide
  have hca : RAction.Created ≠ RAction.NoChange := by decide
  have hid9 : c9Invoice.invoiceID = "SRC-9" := rfl
  have hd9 : c9Invoice.dueDate = 20089 := rfl
  have ha9 : c9Invoice.amountDue = 10000 := rfl
  have hr9 : c9Config.annualRate = 24 := rfl
  have hc9 : c9Config.xeroContactId = "C-9" := rfl
  have hn9 : c9Config.contactName = "Nine" := rfl
  rw [processMonth]
  rw [show c9MS2.ledger = [c9E "INT-0" "INV-INT-0" "2025-01" (329/50) 1,
    c9E "INT-1" "INV-INT-1" "2025-02" (18411/100) 28] from rfl, hres]
  norm_num +decide [hk, hs2, hs2', happ, hb1, hb2, hb3, hca, hid9, hd9, ha9, hr9, hc9,
    hn9, c9sv, c9sd, c9rne12, c9rne13, c9rne23, c9rne12.symm, c9rne13.symm,
    c9rne23.symm, List.filterMap_cons, List.filterMap_nil,
    getOrCreateInterestInvoice,
    canModifyInvoiceS, setStatus, monthlyEntry,
    c9_cmi3, c9MS2, c9MS3, c9MR, c9R, c9E, c9XI, c9XD, c9L, c9X3,
    interestReference, roundMoney, round_eq]

/-- Initial monthly state of the second run: the ledger and external state
left by the first run, fresh result accumulators. -/
def c9MS0r : MonthlyState :=
  { ledger := c9L, xero := c9X3, monthlyResults := [], detailedResults := []
    totalInterest := 0 }

/-- State after the second run's January: the existing January invoice is
reused (`isNew = false`), the result is `NoChange` with delta 0, and no
ledger entry is appended. -/
def c9MS1r : MonthlyState :=
  { ledger := c9L, xero := c9X3,
    monthlyResults := [c9MR "2025-01" "INV-INT-0" "INT-0" (329/50) false],
    detailedResults := [c9Rn "2025-01" (329/50)],
    totalInterest := 329/50 }

/-- State after the second run's February. -/
def c9MS2r : MonthlyState :=
  { ledger := c9L, xero := c9X3,
    monthlyResults := [c9MR "2025-01" "INV-INT-0" "INT-0" (329/50) false,
      c9MR "2025-02" "INV-INT-1" "INT-1" (18411/100) false],
    detailedResults := [c9Rn "2025-01" (329/50), c9Rn "2025-02" (18411/100)],
    totalInterest := 19069/100 }

/-- State after the second run's March: ledger and external state are
exactly the first run's, every delta is 0, every invoice reused. -/
def c9MS3r : MonthlyState :=
  { ledger := c9L, xero := c9X3,
    monthlyResults := [c9MR "2025-01" "INV-INT-0" "INT-0" (329/50) false,
      c9MR "2025-02" "INV-INT-1" "INT-1" (18411/100) false,
      c9MR "2025-03" "INV-INT-2" "INT-2" (5096/25) false],
    detailedResults := [c9Rn "2025-01" (329/50), c9Rn "2025-02" (18411/100),
      c9Rn "2025-03" (5096/25)],
    totalInterest := 39453/100 }

/-- Second run, January: the month result is `NoChange`, the January
invoice is found by its reference and reused, no ledger entry is written. -/
theorem c9_pm1r : processMonth c9Config [c9Invoice] 20162 false c9MS0r 24300 = c9MS1r := by
  have hk : monthKey 24300 = "2025-01" := by decide
  have happ : "[FORIT-INT] Interest Charges - " ++ "2025-01" =
    "[FORIT-INT] Interest Charges - 2025-01" := by decide
  have hres : List.filterMap
      (monthlyInvoiceResult c9Config c9L c9X3 24300)
      [c9Invoice] = [c9Rn "2025-01" (329/50)] := by
    simp only [List.filterMap_cons, List.filterMap_nil, c9_mi1r]
  have hb1 : (XeroStatus.AUTHORISED == XeroStatus.PAID) = false := by decide
  have hb2 : (XeroStatus.AUTHORISED == XeroStatus.VOIDED) = false := by decide
  have hb3 : (XeroStatus.AUTHORISED == XeroStatus.DELETED) = false := by decide
  have hid9 : c9Invoice.invoiceID = "SRC-9" := rfl
  rw [processMonth]
  rw [show c9MS0r.ledger = c9L from rfl, show c9MS0r.xero = c9X3 from rfl, hres]
  norm_num +decide [hk, happ, hb1, hb2, hb3, hid9,
    List.filterMap_cons, List.filterMap_nil, getOrCreateInterestInvoice,
    canModifyInvoiceS, setStatus, monthlyEntry,
    c9sv, c9sd, c9rne12, c9rne13, c9rne23, c9rne12.symm, c9rne13.symm,
    c9rne23.symm,
    c9MS0r, c9MS1r, c9MR, c9Rn, c9E, c9XI, c9XD, c9L, c9X3, interestReference,
    roundMoney, round_eq]

/-- Second run, February. -/
theorem c9_pm2r : processMonth c9Config [c9Invoice] 20162 false c9MS1r 24301 = c9MS2r := by
  have hk : monthKey 24301 = "2025-02" := by decide
  have happ : "[FORIT-INT] Interest Charges - " ++ "2025-02" =
    "[FORIT-INT] Interest Charges - 2025-02" := by decide
  have hres : List.filterMap
      (monthlyInvoiceResult c9Config c9L c9X3 24301)
      [c9Invoice] = [c9Rn "2025-02" (18411/100)] := by
    simp only [List.filterMap_cons, List.filterMap_nil, c9_mi2r]
  have hb1 : (XeroStatus.AUTHORISED == XeroStatus.PAID) = false := by decide
  have hb2 : (XeroStatus.AUTHORISED == XeroStatus.VOIDED) = false := by decide
  have hb3 : (XeroStatus.AUTHORISED == XeroStatus.DELETED) = false := by decide
  have hid9 : c9Invoice.invoiceID = "SRC-9" := rfl
  rw [processMonth]
  rw [show c9MS1r.ledger = c9L from rfl, show c9MS1r.xero = c9X3 from rfl, hres]
  norm_num +decide [hk, happ, hb1, hb2, hb3, hid9,
    List.filterMap_cons, List.filterMap_nil, getOrCreateInterestInvoice,
    canModifyInvoiceS, setStatus, monthlyEntry,
    c9sv, c9sd, c9rne12, c9rne13, c9rne23, c9rne12.symm, c9rne13.symm,
    c9rne23.symm,
    c9MS1r, c9MS2r, c9MR, c9Rn, c9E, c9XI, c9XD, c9L, c9X3, interestReference,
    roundMoney, round_eq]

/-- Second run, March. -/
theorem c9_pm3r : processMonth c9Config [c9Invoice] 20162 false c9MS2r 24302 = c9MS3r := by
  have hk : monthKey 24302 = "2025-03" := by decide
  have happ : "[FORIT-INT] Interest Charges - " ++ "2025-03" =
    "[FORIT-INT] Interest Charges - 2025-03" := by decide
  have hres : List.filterMap
      (monthlyInvoiceResult c9Config c9L c9X3 24302)
      [c9Invoice] = [c9Rn "2025-03" (5096/25)] := by
    simp only [List.filterMap_cons, List.filterMap_nil, c9_mi3r]
  have hb1 : (XeroStatus.AUTHORISED == XeroStatus.PAID) = false := by decide
  have hb2 : (XeroStatus.AUTHORISED == XeroStatus.VOIDED) = false := by decide
  have hb3 : (XeroStatus.AUTHORISED == XeroStatus.DELETED) = false := by decide
  have hid9 : c9Invoice.invoiceID = "SRC-9" := rfl
  rw [processMonth]
  rw [show c9MS2r.ledger = c9L from rfl, show c9MS2r.xero = c9X3 from rfl, hres]
  norm_num +decide [hk, happ, hb1, hb2, hb3, hid9,
    List.filterMap_cons, List.filterMap_nil, getOrCreateInterestInvoice,
    canModifyInvoiceS, setStatus, monthlyEntry,
    c9sv, c9sd, c9rne12, c9rne13, c9rne23, c9rne12.symm, c9rne13.symm,
    c9rne23.symm,
    c9MS2r, c9MS3r, c9MR, c9Rn, c9E, c9XI, c9XD, c9L, c9X3, interestReference,
    roundMoney, round_eq]

/-- Earliest interest date of the scenario: due date plus grace. -/
theorem c9_earliest :
    getEarliestInterestDate [c9Invoice] c9Config.minDaysOverdue = some 20119 := by
  decide

/-- The months to process: January through March 2025. -/
theorem c9_months : getMonthsBetween 20119 20162 = [24300, 24301, 24302] := by
  decide

/-- First run of the monthly batch over the three-month span. -/
theorem c9_run1 :
    runMonthlyReconciliation c9Config [c9Invoice] c9X0 [] 20162 false = c9MS3 := by
  rw [runMonthlyReconciliation]
  have h0 : ({ ledger := [], xero := c9X0, monthlyResults := []
               detailedResults := [], totalInterest := 0 } : MonthlyState) = c9MS0 := rfl
  simp only [List.isEmpty_cons, Bool.false_eq_true, if_false, c9_earliest,
    c9_months, h0, List.foldl_cons, List.foldl_nil, c9_pm1, c9_pm2, c9_pm3]

/-- Second run of the monthly batch: same invoices, the ledger and external
state produced by the first run. -/
theorem c9_run2 :
    runMonthlyReconciliation c9Config [c9Invoice] c9X3 c9L 20162 false = c9MS3r := by
  rw [runMonthlyReconciliation]
  have h0 : ({ ledger := c9L, xero := c9X3, monthlyResults := []
               detailedResults := [], totalInterest := 0 } : MonthlyState) = c9MS0r := rfl
  simp only [List.isEmpty_cons, Bool.false_eq_true, if_false, c9_earliest,
    c9_months, h0, List.foldl_cons, List.foldl_nil, c9_pm1r, c9_pm2r, c9_pm3r]

/-- A month in which every invoice yields no result changes nothing:
`processMonth` returns the state unchanged, writing no invoice and no
ledger entry. -/
theorem processMonth_skip (config : InterestConfig) (invs : List XeroInvoice)
    (asOf : ℤ) (dryRun : Bool) (ms : MonthlyState) (mi : ℤ)
    (h : invs.filterMap (monthlyInvoiceResult config ms.ledger ms.xero mi) = []) :
    processMonth config invs asOf dryRun ms mi = ms := by
  rw [processMonth]
  dsimp only
  rw [h]
  norm_num [List.foldl_nil, List.all_nil]

/-- An invoice with no billable days and no interest in a month yields no
month result. -/
theorem monthlyInvoiceResult_none (config : InterestConfig)
    (ledger : List InterestLedgerEntry) (st : XeroState) (mi : ℤ)
    (invoice : XeroInvoice)
    (h1 : (calculateMonthlyInterest invoice config mi).1 ≤ 0)
    (h2 : (calculateMonthlyInterest invoice config mi).2 ≤ 0) :
    monthlyInvoiceResult config ledger st mi invoice = none := by
  rw [monthlyInvoiceResult]
  dsimp only
  rw [if_pos ⟨h1, h2⟩]

/-- C9: in monthly mode, over a three-month overdue span with no payments,
the first `runMonthlyReconciliation` writes exactly one ledger entry per
month (three entries) against three distinct interest invoices created
under distinct month-keyed reference strings; rerunning the identical batch
on the unchanged invoices and ledger yields delta 0 for every month, reuses
the same interest invoices (`isNew = false`) and writes zero additional
ledger entries; and any month in which every invoice yields no month result
(zero computed interest and no prior ledger entries) is skipped entirely —
`processMonth` leaves the run state unchanged. -/
theorem claim_C9_monthly_idempotence
    (config : InterestConfig) (invs : List XeroInvoice) (asOf : ℤ)
    (dryRun : Bool) (ms : MonthlyState) (mi : ℤ)
    (hskip : invs.filterMap (monthlyInvoiceResult config ms.ledger ms.xero mi) = []) :
    (runMonthlyReconciliation c9Config [c9Invoice] c9X0 [] 20162 false = c9MS3 ∧
     c9MS3.ledger.map (fun e => e.chargeMonth) = ["2025-01", "2025-02", "2025-03"] ∧
     c9MS3.ledger.map (fun e => e.interestInvoiceId) = ["INT-0", "INT-1", "INT-2"] ∧
     c9MS3.xero.invoices.map (fun i => i.reference) =
       [interestReference "2025-01", interestReference "2025-02",
        interestReference "2025-03"] ∧
     (c9MS3.xero.invoices.map (fun i => i.reference)).Nodup) ∧
    (runMonthlyReconciliation c9Config [c9Invoice] c9X3 c9L 20162 false = c9MS3r ∧
     c9MS3r.ledger = c9MS3.ledger ∧
     c9MS3r.xero = c9MS3.xero ∧
     c9MS3r.detailedResults.map (fun r => r.delta) = [0, 0, 0] ∧
     c9MS3r.monthlyResults.map (fun r => r.isNew) = [false, false, false]) ∧
    processMonth config invs asOf dryRun ms mi = ms := by
  refine ⟨⟨c9_run1, by decide, by decide, by decide, by decide⟩,
    ⟨c9_run2, rfl, rfl, by decide, by decide⟩,
    processMonth_skip config invs asOf dryRun ms mi hskip⟩

/-- The C9 theorem instantiated at the scenario, with December 2024 — a
month before any interest starts, with no prior ledger entries — as the
concrete skipped month. -/
theorem claim_C9_witness :
    (runMonthlyReconciliation c9Config [c9Invoice] c9X0 [] 20162 false = c9MS3 ∧
     c9MS3.ledger.map (fun e => e.chargeMonth) = ["2025-01", "2025-02", "2025-03"] ∧
     c9MS3.ledger.map (fun e => e.interestInvoiceId) = ["INT-0", "INT-1", "INT-2"] ∧
     c9MS3.xero.invoices.map (fun i => i.reference) =
       [interestReference "2025-01", interestReference "2025-02",
        interestReference "2025-03"] ∧
     (c9MS3.xero.invoices.map (fun i => i.reference)).Nodup) ∧
    (runMonthlyReconciliation c9Config [c9Invoice] c9X3 c9L 20162 false = c9MS3r ∧
     c9MS3r.ledger = c9MS3.ledger ∧
     c9MS3r.xero = c9MS3.xero ∧
     c9MS3r.detailedResults.map (fun r => r.delta) = [0, 0, 0] ∧
     c9MS3r.monthlyResults.map (fun r => r.isNew) = [false, false, false]) ∧
    processMonth c9Config [c9Invoice] 20162 false c9MS0 24299 = c9MS0 :=
  claim_C9_monthly_idempotence c9Config [c9Invoice] 20162 false c9MS0 24299
    (by decide)

end Forit
